import Mathlib

/-!
# EZUSB translation layer

A shallow embedding of `EZUSBToLibusb/TranslationLayer.cpp`: the registry of
IOCTL handlers and the dispatcher `TL::TranslateIOTCL`; and of the registry
and dispatcher of `EZUSBToLibusb/TranslationLayer/TranslationLayer.cpp`
(namespace `TranslationLayer`), whose handlers are parameters.

* The transfer primitive (`LIBUSBDevice`, declared in `LibusbDevice.h`) is an
  external collaborator.  It is a deterministic oracle: its answer may depend
  on every transfer issued before in the same dispatch and on the transfer
  itself.  Every call a handler makes is recorded, in order, in `calls`.
* `GUSBDev` is a `std::optional<LIBUSBDevice>`; `GUSBDev.value()` on an empty
  optional throws `std::bad_optional_access`, which is the second way a
  handler can complete.
* The handlers use `EZUSB/ezusb.h` through `sizeof`, a few constants and the
  fields of the request structures.  Structure sizes, the version constants
  and `ANCHOR_LOAD_INTERNAL` are parameters (`EzusbHeader`); the request
  structures are records of the fields the handlers read, each holding the
  unsigned value of the field, with no width imposed.
* `DWORD` is 32 bits wide, `int` is 32 bits wide, `uint16_t` and `uint8_t`
  are reduced explicitly where the source converts.
-/

namespace EZUSB

/-! ## Constants of `winerror.h` and `libusb.h` -/

def ERROR_SUCCESS : Nat := 0
def ERROR_GEN_FAILURE : Nat := 31
def ERROR_INVALID_PARAMETER : Nat := 87

def LIBUSB_SUCCESS : Int := 0
def LIBUSB_REQUEST_TYPE_CLASS : Nat := 0x20
def LIBUSB_REQUEST_TYPE_VENDOR : Nat := 0x40
def LIBUSB_RECIPIENT_DEVICE : Nat := 0x00
def LIBUSB_RECIPIENT_INTERFACE : Nat := 0x01
def LIBUSB_RECIPIENT_ENDPOINT : Nat := 0x02
def LIBUSB_RECIPIENT_OTHER : Nat := 0x03

/-- Conversion of an integer value to `DWORD` (32-bit unsigned). -/
def toDWORD (n : Int) : Nat := (n % 4294967296).toNat

/-- Conversion of an integer value to `uint16_t`. -/
def toUInt16 (n : Nat) : Nat := n % 65536

/-- Conversion of an integer value to `uint8_t`. -/
def toUInt8 (n : Nat) : Nat := n % 256

/-- Value of an `int` expression whose mathematical value is `n`
(two's complement wrap-around). -/
def toInt32 (n : Int) : Int := (n + 2147483648) % 4294967296 - 2147483648

/-! ## `EZUSB/ezusb.h` -/

/-- Parameters standing for `EZUSB/ezusb.h`: the `sizeof` of the request
structures and the constants the handlers use. -/
structure EzusbHeader where
  sizeof_VENDOR_REQUEST_IN : Nat
  sizeof_BULK_TRANSFER_CONTROL : Nat
  sizeof_ANCHOR_DOWNLOAD_CONTROL : Nat
  sizeof_VENDOR_OR_CLASS_REQUEST_CONTROL : Nat
  sizeof_EZUSB_DRIVER_VERSION : Nat
  ANCHOR_LOAD_INTERNAL : Nat
  EZUSB_MAJOR_VERSION : Nat
  EZUSB_MINOR_VERSION : Nat
  EZUSB_BUILD_VERSION : Nat
deriving DecidableEq

/-- Modelled from the spec: the structure `VENDOR_REQUEST_IN` of `ezusb.h`
(VendorRequest: direction, requestCode, value, index, length, inlineByte),
with the field names the handler reads. -/
structure VENDOR_REQUEST_IN where
  bRequest : Nat
  wValue : Nat
  wIndex : Nat
  wLength : Nat
  direction : Nat
  bData : Nat
deriving DecidableEq

/-- Modelled from the spec: the structure `BULK_TRANSFER_CONTROL` of
`ezusb.h` (BulkTransferControl: pipeNumber). -/
structure BULK_TRANSFER_CONTROL where
  pipeNum : Nat
deriving DecidableEq

/-- Modelled from the spec: the structure `ANCHOR_DOWNLOAD_CONTROL` of
`ezusb.h` (AnchorDownloadControl: offset). -/
structure ANCHOR_DOWNLOAD_CONTROL where
  Offset : Nat
deriving DecidableEq

/-- Modelled from the spec: the structure `VENDOR_OR_CLASS_REQUEST_CONTROL`
of `ezusb.h` (VendorOrClassRequestControl: requestType, recipient, direction,
requestCode, value, index), with the field names the handler reads.  The spec
gives the request type two bits and the recipient no width; a theorem that
needs a width states it as a hypothesis. -/
structure VENDOR_OR_CLASS_REQUEST_CONTROL where
  direction : Nat
  requestType : Nat
  recepient : Nat
  request : Nat
  value : Nat
  index : Nat
deriving DecidableEq

/-- Modelled from the spec: the structure `EZUSB_DRIVER_VERSION` of `ezusb.h`
(DriverVersionRecord: major, minor, build). -/
structure EZUSB_DRIVER_VERSION where
  MajorVersion : Nat
  MinorVersion : Nat
  BuildVersion : Nat
deriving DecidableEq

/-- The caller's input buffer as the handlers see it: one view per
`reinterpret_cast` of `inBuffer` in the source. -/
structure InBuffer where
  asVENDOR_REQUEST_IN : VENDOR_REQUEST_IN
  asBULK_TRANSFER_CONTROL : BULK_TRANSFER_CONTROL
  asANCHOR_DOWNLOAD_CONTROL : ANCHOR_DOWNLOAD_CONTROL
  asVENDOR_OR_CLASS_REQUEST_CONTROL : VENDOR_OR_CLASS_REQUEST_CONTROL
deriving DecidableEq

/-! ## The transfer primitive -/

/-- The buffer pointer handed to a transfer: the caller's input buffer, the
caller's output buffer advanced by a byte offset, or the local vector
`writeBuffer` with its contents. -/
inductive BufArg where
  | inBuffer : BufArg
  | outBuffer (offset : Int) : BufArg
  | writeBuffer (bytes : List Nat) : BufArg
deriving DecidableEq

/-- One call of a member function of `LIBUSBDevice`, with its arguments. -/
inductive Transfer where
  | ReadControlTransfer (requestType bRequest wValue wIndex : Nat)
      (buffer : BufArg) (wLength : Nat) : Transfer
  | WriteControlTransfer (requestType bRequest wValue wIndex : Nat)
      (buffer : BufArg) (wLength : Nat) : Transfer
  | ReadBulkTransfer (pipeNum : Nat) (buffer : BufArg) (length : Nat) : Transfer
  | WriteBulkTransfer (pipeNum : Nat) (buffer : BufArg) (length : Nat) : Transfer
deriving DecidableEq

/-- What a transfer gives back: the `int` it returns and, for bulk
transfers, the value it stores through the `int*` argument. -/
structure Response where
  ret : Int
  transferred : Int
deriving DecidableEq

/-- Modelled from the spec: the class `LIBUSBDevice` of `LibusbDevice.h`, the
synchronous transfer primitive (controlRead, controlWrite, bulkRead,
bulkWrite).  It is the answer to a transfer, given the transfers issued
before it. -/
structure LIBUSBDevice where
  respond : List Transfer → Transfer → Response

/-- A transfer that was issued, with the `int` it returned. -/
structure Call where
  xfer : Transfer
  ret : Int
deriving DecidableEq

/-! ## Handler results -/

structure ioctl_handler_return_t where
  error : Nat
  bytesReturned : Option Nat
deriving DecidableEq

/-- How a handler completes: it returns, or `GUSBDev.value()` throws. -/
inductive Completion where
  | returned (r : ioctl_handler_return_t) : Completion
  | bad_optional_access : Completion
deriving DecidableEq

/-- One run of a handler: the transfers issued in order, how the handler
completed, and the version record stored through `outBuffer` if one was. -/
structure HandlerRun where
  calls : List Call
  completion : Completion
  version : Option EZUSB_DRIVER_VERSION
deriving DecidableEq

/-- Body of `return error;` with no transfer issued. -/
def returnOnly (error : Nat) : HandlerRun :=
  { calls := [], completion := .returned ⟨error, none⟩, version := none }

/-! ## `IOCTL_Ezusb_VENDOR_REQUEST` -/

/-- Semantics of `std::iota(first, last, value)` over `uint8_t` elements. -/
def std_iota : List Nat → Nat → List Nat
  | [], _ => []
  | _ :: rest, value => toUInt8 value :: std_iota rest (value + 1)

/-- Contents of the local vector `writeBuffer` when it is passed on. -/
def writeBuffer (req : VENDOR_REQUEST_IN) : List Nat :=
  if req.wLength = 1 then
    (List.replicate req.wLength 0).set 0 req.bData
  else
    std_iota (List.replicate req.wLength 0) 0

/-- The last statement of the vendor-request handler. -/
def vendorReturn (status : Int) : ioctl_handler_return_t :=
  if status > 0 then ⟨ERROR_SUCCESS, some (toDWORD status)⟩
  else ⟨ERROR_SUCCESS, none⟩

def Hdl_VENDOR_REQUEST (hdr : EzusbHeader) (GUSBDev : Option LIBUSBDevice)
    (inBuffer : InBuffer) (inBufferLen : Nat) (_outBuffer : List Nat)
    (_outBufferLen : Nat) : HandlerRun :=
  if inBufferLen < hdr.sizeof_VENDOR_REQUEST_IN then
    returnOnly ERROR_INVALID_PARAMETER
  else
    let req := inBuffer.asVENDOR_REQUEST_IN
    if req.direction ≠ 0 then
      match GUSBDev with
      | none => { calls := [], completion := .bad_optional_access, version := none }
      | some dev =>
        let x := Transfer.ReadControlTransfer
          (LIBUSB_REQUEST_TYPE_VENDOR ||| LIBUSB_RECIPIENT_DEVICE)
          req.bRequest req.wValue req.wIndex .inBuffer req.wLength
        let status := (dev.respond [] x).ret
        { calls := [⟨x, status⟩], completion := .returned (vendorReturn status),
          version := none }
    else
      match GUSBDev with
      | none => { calls := [], completion := .bad_optional_access, version := none }
      | some dev =>
        let x := Transfer.WriteControlTransfer
          (LIBUSB_REQUEST_TYPE_VENDOR ||| LIBUSB_RECIPIENT_DEVICE)
          req.bRequest req.wValue req.wIndex (.writeBuffer (writeBuffer req)) req.wLength
        let status := (dev.respond [] x).ret
        { calls := [⟨x, status⟩], completion := .returned (vendorReturn (max status 0)),
          version := none }

/-! ## `IOCTL_EZUSB_BULK_READ`, `IOCTL_EZUSB_BULK_WRITE` -/

def bulkReturn (err : Int) : ioctl_handler_return_t :=
  if err = LIBUSB_SUCCESS then ⟨ERROR_SUCCESS, none⟩ else ⟨ERROR_GEN_FAILURE, none⟩

def Hdl_BULK_READ (hdr : EzusbHeader) (GUSBDev : Option LIBUSBDevice)
    (inBuffer : InBuffer) (inBufferLen : Nat) (_outBuffer : List Nat)
    (outBufferLen : Nat) : HandlerRun :=
  if inBufferLen < hdr.sizeof_BULK_TRANSFER_CONTROL then
    returnOnly ERROR_INVALID_PARAMETER
  else
    let req := inBuffer.asBULK_TRANSFER_CONTROL
    match GUSBDev with
    | none => { calls := [], completion := .bad_optional_access, version := none }
    | some dev =>
      let x := Transfer.ReadBulkTransfer req.pipeNum (.outBuffer 0) outBufferLen
      let err := (dev.respond [] x).ret
      { calls := [⟨x, err⟩], completion := .returned (bulkReturn err), version := none }

def Hdl_BULK_WRITE (hdr : EzusbHeader) (GUSBDev : Option LIBUSBDevice)
    (inBuffer : InBuffer) (inBufferLen : Nat) (_outBuffer : List Nat)
    (outBufferLen : Nat) : HandlerRun :=
  if inBufferLen < hdr.sizeof_BULK_TRANSFER_CONTROL then
    returnOnly ERROR_INVALID_PARAMETER
  else
    let req := inBuffer.asBULK_TRANSFER_CONTROL
    match GUSBDev with
    | none => { calls := [], completion := .bad_optional_access, version := none }
    | some dev =>
      let x := Transfer.WriteBulkTransfer req.pipeNum (.outBuffer 0) outBufferLen
      let err := (dev.respond [] x).ret
      { calls := [⟨x, err⟩], completion := .returned (bulkReturn err), version := none }

/-! ## `IOCTL_Ezusb_RESETPIPE`, `IOCTL_Ezusb_ABORTPIPE` -/

def Hdl_RESETPIPE (_hdr : EzusbHeader) (_GUSBDev : Option LIBUSBDevice)
    (_inBuffer : InBuffer) (_inBufferLen : Nat) (_outBuffer : List Nat)
    (_outBufferLen : Nat) : HandlerRun :=
  returnOnly ERROR_SUCCESS

def Hdl_ABORTPIPE (_hdr : EzusbHeader) (_GUSBDev : Option LIBUSBDevice)
    (_inBuffer : InBuffer) (_inBufferLen : Nat) (_outBuffer : List Nat)
    (_outBufferLen : Nat) : HandlerRun :=
  returnOnly ERROR_SUCCESS

/-! ## `IOCTL_EZUSB_ANCHOR_DOWNLOAD` -/

def ANCHOR_DOWNLOAD_CHUNK_SIZE : Nat := 64

/-- The local `chunkCount`: the sum is formed in `DWORD` arithmetic, so it is
reduced modulo `2^32` before the division; the quotient fits an `int`. -/
def chunkCount (outBufferLen : Nat) : Nat :=
  ((outBufferLen + ANCHOR_DOWNLOAD_CHUNK_SIZE - 1) % 4294967296) / ANCHOR_DOWNLOAD_CHUNK_SIZE

/-- The local `wLength` of iteration `i`. -/
def chunkLength (outBufferLen chunkCount i : Nat) : Nat :=
  if (i : Int) = (chunkCount : Int) - 1 ∧ outBufferLen % ANCHOR_DOWNLOAD_CHUNK_SIZE ≠ 0 then
    toUInt16 (outBufferLen % ANCHOR_DOWNLOAD_CHUNK_SIZE)
  else
    ANCHOR_DOWNLOAD_CHUNK_SIZE

/-- The local `wValue` of iteration `i`: the `int` sum stored in a
`uint16_t`. -/
def chunkValue (req : ANCHOR_DOWNLOAD_CONTROL) (i : Nat) : Nat :=
  toUInt16 (i * ANCHOR_DOWNLOAD_CHUNK_SIZE + req.Offset)

/-- The control-write of iteration `i`; `bufferAddr` is `outBuffer` advanced
by the `int` product `i * ANCHOR_DOWNLOAD_CHUNK_SIZE`. -/
def chunkTransfer (hdr : EzusbHeader) (req : ANCHOR_DOWNLOAD_CONTROL)
    (outBufferLen chunkCount i : Nat) : Transfer :=
  Transfer.WriteControlTransfer
    (LIBUSB_REQUEST_TYPE_VENDOR ||| LIBUSB_RECIPIENT_DEVICE)
    hdr.ANCHOR_LOAD_INTERNAL (chunkValue req i) 0
    (.outBuffer (toInt32 ((i : Int) * (ANCHOR_DOWNLOAD_CHUNK_SIZE : Int))))
    (chunkLength outBufferLen chunkCount i)

/-- The `for` loop of the anchor-download handler, entered at index `i` with
`remaining = chunkCount - i` iterations to go and `calls` issued so far. -/
def anchorLoop (hdr : EzusbHeader) (GUSBDev : Option LIBUSBDevice)
    (req : ANCHOR_DOWNLOAD_CONTROL) (outBufferLen chunkCount : Nat) :
    Nat → Nat → List Call → HandlerRun
  | 0, _, calls =>
    { calls := calls, completion := .returned ⟨ERROR_SUCCESS, none⟩, version := none }
  | remaining + 1, i, calls =>
    match GUSBDev with
    | none => { calls := calls, completion := .bad_optional_access, version := none }
    | some dev =>
      let wLength := chunkLength outBufferLen chunkCount i
      let x := chunkTransfer hdr req outBufferLen chunkCount i
      let transferred := (dev.respond (calls.map Call.xfer) x).ret
      if transferred ≠ (wLength : Int) then
        { calls := calls ++ [⟨x, transferred⟩],
          completion := .returned ⟨ERROR_GEN_FAILURE, none⟩, version := none }
      else
        anchorLoop hdr GUSBDev req outBufferLen chunkCount remaining (i + 1)
          (calls ++ [⟨x, transferred⟩])

def Hdl_ANCHOR_DOWNLOAD (hdr : EzusbHeader) (GUSBDev : Option LIBUSBDevice)
    (inBuffer : InBuffer) (inBufferLen : Nat) (_outBuffer : List Nat)
    (outBufferLen : Nat) : HandlerRun :=
  if inBufferLen < hdr.sizeof_ANCHOR_DOWNLOAD_CONTROL then
    returnOnly ERROR_INVALID_PARAMETER
  else
    let req := inBuffer.asANCHOR_DOWNLOAD_CONTROL
    anchorLoop hdr GUSBDev req outBufferLen (chunkCount outBufferLen)
      (chunkCount outBufferLen) 0 []

/-! ## `IOCTL_EZUSB_VENDOR_OR_CLASS_REQUEST` -/

/-- The `switch` of the vendor-or-class handler: the local `requestType`
after it, from the two fields of the request. -/
def decodeRequestType (requestType recepient : Nat) : Nat :=
  match (requestType <<< 2) ||| recepient with
  | 0x04 => LIBUSB_REQUEST_TYPE_CLASS ||| LIBUSB_RECIPIENT_DEVICE
  | 0x05 => LIBUSB_REQUEST_TYPE_CLASS ||| LIBUSB_RECIPIENT_INTERFACE
  | 0x06 => LIBUSB_REQUEST_TYPE_CLASS ||| LIBUSB_RECIPIENT_ENDPOINT
  | 0x07 => LIBUSB_REQUEST_TYPE_CLASS ||| LIBUSB_RECIPIENT_OTHER
  | 0x08 => LIBUSB_REQUEST_TYPE_VENDOR ||| LIBUSB_RECIPIENT_DEVICE
  | 0x09 => LIBUSB_REQUEST_TYPE_VENDOR ||| LIBUSB_RECIPIENT_INTERFACE
  | 0x0A => LIBUSB_REQUEST_TYPE_VENDOR ||| LIBUSB_RECIPIENT_ENDPOINT
  | 0x0B => LIBUSB_REQUEST_TYPE_VENDOR ||| LIBUSB_RECIPIENT_OTHER
  | _ => 0

def vendorOrClassReturn (status : Int) : ioctl_handler_return_t :=
  if status ≥ 0 then ⟨ERROR_SUCCESS, none⟩ else ⟨ERROR_GEN_FAILURE, none⟩

def Hdl_VENDOR_OR_CLASS_REQUEST (hdr : EzusbHeader) (GUSBDev : Option LIBUSBDevice)
    (inBuffer : InBuffer) (inBufferLen : Nat) (_outBuffer : List Nat)
    (outBufferLen : Nat) : HandlerRun :=
  if inBufferLen < hdr.sizeof_VENDOR_OR_CLASS_REQUEST_CONTROL then
    returnOnly ERROR_INVALID_PARAMETER
  else
    let req := inBuffer.asVENDOR_OR_CLASS_REQUEST_CONTROL
    let requestType := decodeRequestType req.requestType req.recepient
    match GUSBDev with
    | none => { calls := [], completion := .bad_optional_access, version := none }
    | some dev =>
      let x :=
        if req.direction ≠ 0 then
          Transfer.ReadControlTransfer requestType req.request req.value req.index
            (.outBuffer 0) (toUInt16 outBufferLen)
        else
          Transfer.WriteControlTransfer requestType req.request req.value req.index
            (.outBuffer 0) (toUInt16 outBufferLen)
      let status := (dev.respond [] x).ret
      { calls := [⟨x, status⟩], completion := .returned (vendorOrClassReturn status),
        version := none }

/-! ## `IOCTL_EZUSB_GET_DRIVER_VERSION` -/

def Hdl_GET_DRIVER_VERSION (hdr : EzusbHeader) (_GUSBDev : Option LIBUSBDevice)
    (_inBuffer : InBuffer) (_inBufferLen : Nat) (_outBuffer : List Nat)
    (outBufferLen : Nat) : HandlerRun :=
  if outBufferLen < hdr.sizeof_EZUSB_DRIVER_VERSION then
    returnOnly ERROR_GEN_FAILURE
  else
    { calls := [],
      completion := .returned
        ⟨ERROR_SUCCESS, some (toDWORD (hdr.sizeof_EZUSB_DRIVER_VERSION : Int))⟩,
      version := some
        ⟨hdr.EZUSB_MAJOR_VERSION, hdr.EZUSB_MINOR_VERSION, hdr.EZUSB_BUILD_VERSION⟩ }

/-! ## The registry and the dispatcher -/

/-- Modelled from the spec: the opcodes, the request codes of `ezusb.h` that
the two registries name, pairwise distinct, and every other `DWORD`. -/
inductive IOCTL where
  | Ezusb_GET_CURRENT_CONFIG : IOCTL
  | Ezusb_VENDOR_REQUEST : IOCTL
  | EZUSB_BULK_READ : IOCTL
  | EZUSB_BULK_WRITE : IOCTL
  | Ezusb_RESETPIPE : IOCTL
  | Ezusb_ABORTPIPE : IOCTL
  | EZUSB_ANCHOR_DOWNLOAD : IOCTL
  | EZUSB_VENDOR_OR_CLASS_REQUEST : IOCTL
  | EZUSB_GET_DRIVER_VERSION : IOCTL
  | other (code : Nat) : IOCTL
deriving DecidableEq

def ioctl_handler_t : Type :=
  EzusbHeader → Option LIBUSBDevice → InBuffer → Nat → List Nat → Nat → HandlerRun

/-- The map `ioctl_handler_map` of `EZUSBToLibusb/TranslationLayer.cpp`;
`none` is `find` returning `end()`. -/
def ioctl_handler_map : IOCTL → Option ioctl_handler_t
  | .Ezusb_VENDOR_REQUEST => some Hdl_VENDOR_REQUEST
  | .EZUSB_BULK_READ => some Hdl_BULK_READ
  | .EZUSB_BULK_WRITE => some Hdl_BULK_WRITE
  | .Ezusb_RESETPIPE => some Hdl_RESETPIPE
  | .Ezusb_ABORTPIPE => some Hdl_ABORTPIPE
  | .EZUSB_ANCHOR_DOWNLOAD => some Hdl_ANCHOR_DOWNLOAD
  | .EZUSB_VENDOR_OR_CLASS_REQUEST => some Hdl_VENDOR_OR_CLASS_REQUEST
  | .EZUSB_GET_DRIVER_VERSION => some Hdl_GET_DRIVER_VERSION
  | _ => none

/-- One run of the dispatcher: the handler run if a handler was invoked, the
`DWORD` returned (`none` when the exception of the handler propagates), and
the value at `lpBytesReturned` afterwards (`none` for a null pointer). -/
structure DispatchRun where
  handler : Option HandlerRun
  status : Option Nat
  bytesReturned : Option Nat
deriving DecidableEq

/-- The function `TL::TranslateIOTCL` of `EZUSBToLibusb/TranslationLayer.cpp`.
`lpBytesReturned` is `none` for a null pointer and otherwise the value the
location holds before the call. -/
def TranslateIOTCL (hdr : EzusbHeader) (GUSBDev : Option LIBUSBDevice) (dwIOCTL : IOCTL)
    (lpInBuffer : InBuffer) (nInBufferSize : Nat) (lpOutBuffer : List Nat)
    (nOutBufferSize : Nat) (lpBytesReturned : Option Nat) : DispatchRun :=
  match ioctl_handler_map dwIOCTL with
  | none => { handler := none, status := some ERROR_SUCCESS, bytesReturned := lpBytesReturned }
  | some hdl =>
    let run := hdl hdr GUSBDev lpInBuffer nInBufferSize lpOutBuffer nOutBufferSize
    match run.completion with
    | .bad_optional_access =>
      { handler := some run, status := none, bytesReturned := lpBytesReturned }
    | .returned result =>
      match lpBytesReturned, result.bytesReturned with
      | some _, some n =>
        { handler := some run, status := some result.error, bytesReturned := some n }
      | _, _ =>
        { handler := some run, status := some result.error, bytesReturned := lpBytesReturned }

/-! ## Sample data -/

/-- Sample values for the header parameters, used in concrete runs. -/
def sampleHeader : EzusbHeader :=
  { sizeof_VENDOR_REQUEST_IN := 10
    sizeof_BULK_TRANSFER_CONTROL := 4
    sizeof_ANCHOR_DOWNLOAD_CONTROL := 2
    sizeof_VENDOR_OR_CLASS_REQUEST_CONTROL := 10
    sizeof_EZUSB_DRIVER_VERSION := 6
    ANCHOR_LOAD_INTERNAL := 0xA0
    EZUSB_MAJOR_VERSION := 1
    EZUSB_MINOR_VERSION := 30
    EZUSB_BUILD_VERSION := 0 }

/-- An input buffer whose views hold the given requests. -/
def sampleInBuffer (v : VENDOR_REQUEST_IN) (a : ANCHOR_DOWNLOAD_CONTROL)
    (c : VENDOR_OR_CLASS_REQUEST_CONTROL) : InBuffer :=
  { asVENDOR_REQUEST_IN := v
    asBULK_TRANSFER_CONTROL := ⟨2⟩
    asANCHOR_DOWNLOAD_CONTROL := a
    asVENDOR_OR_CLASS_REQUEST_CONTROL := c }

/-- The length argument of a transfer. -/
def Transfer.length : Transfer → Nat
  | .ReadControlTransfer _ _ _ _ _ n => n
  | .WriteControlTransfer _ _ _ _ _ n => n
  | .ReadBulkTransfer _ _ n => n
  | .WriteBulkTransfer _ _ n => n

/-- A device that transfers every control request in full and completes
every bulk transfer with `LIBUSB_SUCCESS`. -/
def fullDevice : LIBUSBDevice :=
  { respond := fun _ x =>
      match x with
      | .ReadControlTransfer _ _ _ _ _ n => ⟨n, 0⟩
      | .WriteControlTransfer _ _ _ _ _ n => ⟨n, 0⟩
      | .ReadBulkTransfer _ _ n => ⟨LIBUSB_SUCCESS, n⟩
      | .WriteBulkTransfer _ _ n => ⟨LIBUSB_SUCCESS, n⟩ }

/-- A device that answers every transfer with the same `int`. -/
def constDevice (r : Int) : LIBUSBDevice :=
  { respond := fun _ _ => ⟨r, 0⟩ }

/-! ## Reading a run of the anchor-download loop -/

/-- The transfers of chunks `0, …, k-1`, in ascending index order. -/
def anchorIssued (hdr : EzusbHeader) (req : ANCHOR_DOWNLOAD_CONTROL)
    (outBufferLen chunkCount k : Nat) : List Transfer :=
  (List.range k).map (chunkTransfer hdr req outBufferLen chunkCount)

/-- What the device returns for chunk `j` when chunks `0, …, j-1` were
issued before it. -/
def anchorResponse (dev : LIBUSBDevice) (hdr : EzusbHeader) (req : ANCHOR_DOWNLOAD_CONTROL)
    (outBufferLen chunkCount j : Nat) : Int :=
  (dev.respond (anchorIssued hdr req outBufferLen chunkCount j)
    (chunkTransfer hdr req outBufferLen chunkCount j)).ret

/-- The calls of chunks `0, …, k-1` with the values returned, in ascending
index order. -/
def anchorCalls (dev : LIBUSBDevice) (hdr : EzusbHeader) (req : ANCHOR_DOWNLOAD_CONTROL)
    (outBufferLen chunkCount k : Nat) : List Call :=
  (List.range k).map (fun j =>
    ⟨chunkTransfer hdr req outBufferLen chunkCount j,
      anchorResponse dev hdr req outBufferLen chunkCount j⟩)

/-! ## Reading the bitmask of a vendor-or-class request -/

/-- The type bits libusb assigns to request type 1 (class) and 2 (vendor). -/
def typeBits (requestType : Nat) : Nat :=
  if requestType = 1 then LIBUSB_REQUEST_TYPE_CLASS else LIBUSB_REQUEST_TYPE_VENDOR

/-- The recipient bits libusb assigns to recipient 0 (device), 1 (interface),
2 (endpoint) and 3 (other). -/
def recipientBits : Nat → Nat
  | 0 => LIBUSB_RECIPIENT_DEVICE
  | 1 => LIBUSB_RECIPIENT_INTERFACE
  | 2 => LIBUSB_RECIPIENT_ENDPOINT
  | _ => LIBUSB_RECIPIENT_OTHER

/-- The control transfer of the vendor-or-class handler for a request, a
bitmask and the output length. -/
def vendorOrClassTransfer (req : VENDOR_OR_CLASS_REQUEST_CONTROL) (requestType : Nat)
    (outBufferLen : Nat) : Transfer :=
  if req.direction ≠ 0 then
    Transfer.ReadControlTransfer requestType req.request req.value req.index
      (.outBuffer 0) (toUInt16 outBufferLen)
  else
    Transfer.WriteControlTransfer requestType req.request req.value req.index
      (.outBuffer 0) (toUInt16 outBufferLen)

/-! ## Reading the transfers of the single-call handlers -/

/-- The control-read of the vendor-request handler. -/
def vendorReadTransfer (req : VENDOR_REQUEST_IN) : Transfer :=
  Transfer.ReadControlTransfer (LIBUSB_REQUEST_TYPE_VENDOR ||| LIBUSB_RECIPIENT_DEVICE)
    req.bRequest req.wValue req.wIndex .inBuffer req.wLength

/-- The control-write of the vendor-request handler. -/
def vendorWriteTransfer (req : VENDOR_REQUEST_IN) : Transfer :=
  Transfer.WriteControlTransfer (LIBUSB_REQUEST_TYPE_VENDOR ||| LIBUSB_RECIPIENT_DEVICE)
    req.bRequest req.wValue req.wIndex (.writeBuffer (writeBuffer req)) req.wLength

/-! ## The dispatcher of `EZUSBToLibusb/TranslationLayer/TranslationLayer.cpp` -/

/-- Modelled from the spec: the handlers declared in `IOCTLHandlers.h`, which
the registry of `TranslationLayer/TranslationLayer.cpp` names.  Each is a
request handler of the same shape as above; nothing else is assumed of
them. -/
structure IOCTLHandlers where
  Hdl_IOCTL_Ezusb_GET_CURRENT_CONFIG : ioctl_handler_t
  Hdl_IOCTL_Ezusb_VENDOR_REQUEST : ioctl_handler_t
  Hdl_IOCTL_EZUSB_BULK_READ : ioctl_handler_t
  Hdl_IOCTL_EZUSB_BULK_WRITE : ioctl_handler_t
  Hdl_IOCTL_EZUSB_ANCHOR_DOWNLOAD : ioctl_handler_t
  Hdl_IOCTL_EZUSB_VENDOR_OR_CLASS_REQUEST : ioctl_handler_t
  Hdl_IOCTL_EZUSB_GET_DRIVER_VERSION : ioctl_handler_t

namespace TranslationLayer

/-- The map `ioctl_handler_map` of
`EZUSBToLibusb/TranslationLayer/TranslationLayer.cpp`; `none` is `find`
returning `end()`. -/
def ioctl_handler_map (H : IOCTLHandlers) : IOCTL → Option ioctl_handler_t
  | .Ezusb_GET_CURRENT_CONFIG => some H.Hdl_IOCTL_Ezusb_GET_CURRENT_CONFIG
  | .Ezusb_VENDOR_REQUEST => some H.Hdl_IOCTL_Ezusb_VENDOR_REQUEST
  | .EZUSB_BULK_READ => some H.Hdl_IOCTL_EZUSB_BULK_READ
  | .EZUSB_BULK_WRITE => some H.Hdl_IOCTL_EZUSB_BULK_WRITE
  | .EZUSB_ANCHOR_DOWNLOAD => some H.Hdl_IOCTL_EZUSB_ANCHOR_DOWNLOAD
  | .EZUSB_VENDOR_OR_CLASS_REQUEST => some H.Hdl_IOCTL_EZUSB_VENDOR_OR_CLASS_REQUEST
  | .EZUSB_GET_DRIVER_VERSION => some H.Hdl_IOCTL_EZUSB_GET_DRIVER_VERSION
  | _ => none

/-- The function `TL::TranslateIOTCL` of
`EZUSBToLibusb/TranslationLayer/TranslationLayer.cpp`. -/
def TranslateIOTCL (H : IOCTLHandlers) (hdr : EzusbHeader) (GUSBDev : Option LIBUSBDevice)
    (dwIOCTL : IOCTL) (lpInBuffer : InBuffer) (nInBufferSize : Nat) (lpOutBuffer : List Nat)
    (nOutBufferSize : Nat) (lpBytesReturned : Option Nat) : DispatchRun :=
  match ioctl_handler_map H dwIOCTL with
  | none =>
    { handler := none, status := some ERROR_INVALID_PARAMETER, bytesReturned := lpBytesReturned }
  | some hdl =>
    let run := hdl hdr GUSBDev lpInBuffer nInBufferSize lpOutBuffer nOutBufferSize
    match run.completion with
    | .bad_optional_access =>
      { handler := some run, status := none, bytesReturned := lpBytesReturned }
    | .returned result =>
      match lpBytesReturned, result.bytesReturned with
      | some _, some n =>
        { handler := some run, status := some result.error, bytesReturned := some n }
      | _, _ =>
        { handler := some run, status := some result.error, bytesReturned := lpBytesReturned }

end TranslationLayer

/-- Sample handlers for the second registry: those of the first file, with a
no-op for the configuration query. -/
def sampleHandlers : IOCTLHandlers :=
  { Hdl_IOCTL_Ezusb_GET_CURRENT_CONFIG := Hdl_RESETPIPE
    Hdl_IOCTL_Ezusb_VENDOR_REQUEST := Hdl_VENDOR_REQUEST
    Hdl_IOCTL_EZUSB_BULK_READ := Hdl_BULK_READ
    Hdl_IOCTL_EZUSB_BULK_WRITE := Hdl_BULK_WRITE
    Hdl_IOCTL_EZUSB_ANCHOR_DOWNLOAD := Hdl_ANCHOR_DOWNLOAD
    Hdl_IOCTL_EZUSB_VENDOR_OR_CLASS_REQUEST := Hdl_VENDOR_OR_CLASS_REQUEST
    Hdl_IOCTL_EZUSB_GET_DRIVER_VERSION := Hdl_GET_DRIVER_VERSION }

/-! ## Repeated dispatch and the bytes a transfer sends -/

/-- The same dispatch made `n` times in a row through the first dispatcher;
the value at `lpBytesReturned` after one call is the value before the
next. -/
def dispatchTimes (hdr : EzusbHeader) (GUSBDev : Option LIBUSBDevice) (dwIOCTL : IOCTL)
    (lpInBuffer : InBuffer) (nInBufferSize : Nat) (lpOutBuffer : List Nat)
    (nOutBufferSize : Nat) : Nat → Option Nat → List DispatchRun
  | 0, _ => []
  | n + 1, lpBytesReturned =>
    TranslateIOTCL hdr GUSBDev dwIOCTL lpInBuffer nInBufferSize lpOutBuffer nOutBufferSize
        lpBytesReturned ::
      dispatchTimes hdr GUSBDev dwIOCTL lpInBuffer nInBufferSize lpOutBuffer nOutBufferSize n
        (TranslateIOTCL hdr GUSBDev dwIOCTL lpInBuffer nInBufferSize lpOutBuffer
          nOutBufferSize lpBytesReturned).bytesReturned

/-- The `length` bytes of `buffer` from byte offset `offset` on, when that
range lies inside the buffer. -/
def bytesAt (buffer : List Nat) (offset : Int) (length : Nat) : Option (List Nat) :=
  if 0 ≤ offset ∧ offset.toNat + length ≤ buffer.length then
    some ((buffer.drop offset.toNat).take length)
  else
    none

/-- The bytes a write transfer sends, given the contents of the caller's
output buffer. -/
def Transfer.payload (outBuffer : List Nat) : Transfer → Option (List Nat)
  | .WriteControlTransfer _ _ _ _ (.outBuffer offset) n => bytesAt outBuffer offset n
  | .WriteControlTransfer _ _ _ _ (.writeBuffer bytes) n => bytesAt bytes 0 n
  | .WriteBulkTransfer _ (.outBuffer offset) n => bytesAt outBuffer offset n
  | .WriteBulkTransfer _ (.writeBuffer bytes) n => bytesAt bytes 0 n
  | _ => none

/-- The payloads of the calls of a run, in issue order. -/
def HandlerRun.payloads (run : HandlerRun) (outBuffer : List Nat) : List (Option (List Nat)) :=
  run.calls.map (fun c => c.xfer.payload outBuffer)

end EZUSB

namespace EZUSB

/-! ## The anchor-download loop -/

theorem anchorCalls_xfer (dev : LIBUSBDevice) (hdr : EzusbHeader)
    (req : ANCHOR_DOWNLOAD_CONTROL) (P n k : Nat) :
    (anchorCalls dev hdr req P n k).map Call.xfer = anchorIssued hdr req P n k := by
  simp [anchorCalls, anchorIssued, List.map_map, Function.comp_def]

theorem anchorCalls_succ (dev : LIBUSBDevice) (hdr : EzusbHeader)
    (req : ANCHOR_DOWNLOAD_CONTROL) (P n k : Nat) :
    anchorCalls dev hdr req P n (k + 1) =
      anchorCalls dev hdr req P n k ++
        [⟨chunkTransfer hdr req P n k, anchorResponse dev hdr req P n k⟩] := by
  simp [anchorCalls, List.range_succ]

theorem anchorCalls_length (dev : LIBUSBDevice) (hdr : EzusbHeader)
    (req : ANCHOR_DOWNLOAD_CONTROL) (P n k : Nat) :
    (anchorCalls dev hdr req P n k).length = k := by
  simp [anchorCalls]

/-- The loop entered at `i` runs to its end when every remaining chunk is
transferred in full. -/
theorem anchorLoop_all_full (dev : LIBUSBDevice) (hdr : EzusbHeader)
    (req : ANCHOR_DOWNLOAD_CONTROL) (P n : Nat) :
    ∀ (k i : Nat),
      (∀ j, i ≤ j → j < i + k →
        anchorResponse dev hdr req P n j = (chunkLength P n j : Int)) →
      anchorLoop hdr (some dev) req P n k i (anchorCalls dev hdr req P n i) =
        { calls := anchorCalls dev hdr req P n (i + k),
          completion := .returned ⟨ERROR_SUCCESS, none⟩, version := none } := by
  intro k
  induction k with
  | zero => intro i _; simp [anchorLoop]
  | succ k ih =>
    intro i h
    have hi := h i (Nat.le_refl i) (by omega)
    have hstep := ih (i + 1) (fun j h1 h2 => h j (by omega) (by omega))
    rw [anchorCalls_succ] at hstep
    simp only [anchorLoop, anchorCalls_xfer]
    unfold anchorResponse at hi
    rw [if_neg (by simpa using hi)]
    unfold anchorResponse at hstep
    rw [hstep]
    have : i + 1 + k = i + (k + 1) := by omega
    rw [this]

/-- The loop entered at `i` stops at the first remaining chunk `m` whose
transferred count differs from its length. -/
theorem anchorLoop_first_mismatch (dev : LIBUSBDevice) (hdr : EzusbHeader)
    (req : ANCHOR_DOWNLOAD_CONTROL) (P n : Nat) :
    ∀ (k i m : Nat), i ≤ m → m < i + k →
      (∀ j, i ≤ j → j < m →
        anchorResponse dev hdr req P n j = (chunkLength P n j : Int)) →
      anchorResponse dev hdr req P n m ≠ (chunkLength P n m : Int) →
      anchorLoop hdr (some dev) req P n k i (anchorCalls dev hdr req P n i) =
        { calls := anchorCalls dev hdr req P n (m + 1),
          completion := .returned ⟨ERROR_GEN_FAILURE, none⟩, version := none } := by
  intro k
  induction k with
  | zero => intro i m h1 h2; omega
  | succ k ih =>
    intro i m him hmk hbefore hbad
    simp only [anchorLoop, anchorCalls_xfer]
    by_cases hmi : m = i
    · subst hmi
      unfold anchorResponse at hbad
      rw [if_pos (by simpa using hbad), anchorCalls_succ]
      rfl
    · have hi := hbefore i (Nat.le_refl i) (by omega)
      have hstep := ih (i + 1) m (by omega) (by omega)
        (fun j h1 h2 => hbefore j (by omega) h2) hbad
      rw [anchorCalls_succ] at hstep
      unfold anchorResponse at hi
      rw [if_neg (by simpa using hi)]
      unfold anchorResponse at hstep
      rw [hstep]

/-- The handler with a valid input structure and an attached device is the
loop run from index `0`. -/
theorem Hdl_ANCHOR_DOWNLOAD_valid (hdr : EzusbHeader) (dev : LIBUSBDevice)
    (inBuffer : InBuffer) (inBufferLen : Nat) (outBuffer : List Nat) (P : Nat)
    (hvalid : hdr.sizeof_ANCHOR_DOWNLOAD_CONTROL ≤ inBufferLen) :
    Hdl_ANCHOR_DOWNLOAD hdr (some dev) inBuffer inBufferLen outBuffer P =
      anchorLoop hdr (some dev) inBuffer.asANCHOR_DOWNLOAD_CONTROL P (chunkCount P)
        (chunkCount P) 0
        (anchorCalls dev hdr inBuffer.asANCHOR_DOWNLOAD_CONTROL P (chunkCount P) 0) := by
  unfold Hdl_ANCHOR_DOWNLOAD
  rw [if_neg (by omega)]
  rfl

/-- Below the wrap-around of the `DWORD` sum the local `chunkCount` is the
rounded-up quotient. -/
theorem chunkCount_in_range (P : Nat) (hP : P + 63 < 4294967296) :
    chunkCount P = (P + 63) / 64 := by
  unfold chunkCount ANCHOR_DOWNLOAD_CHUNK_SIZE
  have hsum : P + 64 - 1 = P + 63 := by omega
  rw [hsum, Nat.mod_eq_of_lt hP]

/-- For a payload length whose rounding sum does not wrap, and a device that
transfers every chunk in full, the anchor-download handler issues
`(P + 63) / 64` control-writes and succeeds; each write but the last has
length 64 and the last has length `P mod 64` if that is non-zero, else 64. -/
theorem anchor_download_chunks_in_range (hdr : EzusbHeader) (dev : LIBUSBDevice)
    (inBuffer : InBuffer) (inBufferLen : Nat) (outBuffer : List Nat) (P : Nat)
    (hvalid : hdr.sizeof_ANCHOR_DOWNLOAD_CONTROL ≤ inBufferLen)
    (hP : P + 63 < 4294967296)
    (hfull : ∀ hist x, (dev.respond hist x).ret = (x.length : Int)) :
    (Hdl_ANCHOR_DOWNLOAD hdr (some dev) inBuffer inBufferLen outBuffer P).completion
        = .returned ⟨ERROR_SUCCESS, none⟩ ∧
    (Hdl_ANCHOR_DOWNLOAD hdr (some dev) inBuffer inBufferLen outBuffer P).calls.map
        (fun c => c.xfer.length)
      = (List.range ((P + 63) / 64)).map
          (fun i => if i + 1 < (P + 63) / 64 then 64 else if P % 64 ≠ 0 then P % 64 else 64) := by
  have hrun := anchorLoop_all_full dev hdr inBuffer.asANCHOR_DOWNLOAD_CONTROL P
    (chunkCount P) (chunkCount P) 0 (by
      intro j _ _
      unfold anchorResponse
      rw [hfull]
      rfl)
  rw [Hdl_ANCHOR_DOWNLOAD_valid hdr dev inBuffer inBufferLen outBuffer P hvalid, hrun]
  refine ⟨rfl, ?_⟩
  rw [chunkCount_in_range P hP]
  simp only [anchorCalls, List.map_map, Nat.zero_add]
  apply List.map_congr_left
  intro i hi
  have hi2 : i < (P + 63) / 64 := List.mem_range.mp hi
  simp only [Function.comp, chunkTransfer, Transfer.length, chunkLength,
    ANCHOR_DOWNLOAD_CHUNK_SIZE, toUInt16]
  have hmod : P % 64 < 64 := Nat.mod_lt _ (by decide)
  by_cases hlast : i + 1 < (P + 63) / 64
  · rw [if_pos hlast, if_neg (by omega)]
  · rw [if_neg hlast]
    by_cases hz : P % 64 = 0
    · rw [if_neg (by omega), if_neg (by omega)]
    · rw [if_pos (by omega), if_pos hz]
      omega

/-- C1 (failing input): with a valid input structure and the output-buffer
length `0xFFFFFFFF`, the `DWORD` sum `outBufferLen + 64 - 1` wraps to 62, the
local `chunkCount` is 0, and the anchor-download handler issues no
control-write at all and returns success, whatever the device does; the
rounded-up quotient of that length by 64 is 67108864. -/
theorem anchor_download_chunk_count_wraps (hdr : EzusbHeader) (dev : LIBUSBDevice)
    (inBuffer : InBuffer) (outBuffer : List Nat) :
    chunkCount 4294967295 = 0 ∧
    Hdl_ANCHOR_DOWNLOAD hdr (some dev) inBuffer hdr.sizeof_ANCHOR_DOWNLOAD_CONTROL
        outBuffer 4294967295
      = { calls := [], completion := .returned ⟨ERROR_SUCCESS, none⟩, version := none } ∧
    (4294967295 + 63) / 64 = 67108864 := by
  refine ⟨by decide, ?_, by decide⟩
  rw [Hdl_ANCHOR_DOWNLOAD_valid hdr dev inBuffer _ outBuffer _ (Nat.le_refl _)]
  have h0 : chunkCount 4294967295 = 0 := by decide
  rw [h0]
  rfl

/-- C2: for a valid anchor-download request on an attached device, chunks
are issued in ascending index order.  If chunk `i` is the first whose
returned count differs from its intended length, the calls issued are exactly
those of chunks `0, …, i` and the handler returns general-failure with no
byte count.  If every chunk is transferred in full the calls are those of all
chunks, and the handler returns success with no byte count exactly in that
case. -/
theorem anchor_download_halts_at_first_mismatch (hdr : EzusbHeader) (dev : LIBUSBDevice)
    (inBuffer : InBuffer) (inBufferLen : Nat) (outBuffer : List Nat) (P : Nat)
    (hvalid : hdr.sizeof_ANCHOR_DOWNLOAD_CONTROL ≤ inBufferLen) :
    (∀ i, i < chunkCount P →
      (∀ j, j < i →
        anchorResponse dev hdr inBuffer.asANCHOR_DOWNLOAD_CONTROL P (chunkCount P) j
          = (chunkLength P (chunkCount P) j : Int)) →
      anchorResponse dev hdr inBuffer.asANCHOR_DOWNLOAD_CONTROL P (chunkCount P) i
          ≠ (chunkLength P (chunkCount P) i : Int) →
      Hdl_ANCHOR_DOWNLOAD hdr (some dev) inBuffer inBufferLen outBuffer P
        = { calls := anchorCalls dev hdr inBuffer.asANCHOR_DOWNLOAD_CONTROL P
              (chunkCount P) (i + 1),
            completion := .returned ⟨ERROR_GEN_FAILURE, none⟩, version := none }) ∧
    ((∀ j, j < chunkCount P →
        anchorResponse dev hdr inBuffer.asANCHOR_DOWNLOAD_CONTROL P (chunkCount P) j
          = (chunkLength P (chunkCount P) j : Int)) →
      (Hdl_ANCHOR_DOWNLOAD hdr (some dev) inBuffer inBufferLen outBuffer P).calls
        = anchorCalls dev hdr inBuffer.asANCHOR_DOWNLOAD_CONTROL P (chunkCount P)
            (chunkCount P)) ∧
    ((Hdl_ANCHOR_DOWNLOAD hdr (some dev) inBuffer inBufferLen outBuffer P).completion
        = .returned ⟨ERROR_SUCCESS, none⟩ ↔
      ∀ j, j < chunkCount P →
        anchorResponse dev hdr inBuffer.asANCHOR_DOWNLOAD_CONTROL P (chunkCount P) j
          = (chunkLength P (chunkCount P) j : Int)) := by
  rw [Hdl_ANCHOR_DOWNLOAD_valid hdr dev inBuffer inBufferLen outBuffer P hvalid]
  have hfail := anchorLoop_first_mismatch dev hdr inBuffer.asANCHOR_DOWNLOAD_CONTROL P
    (chunkCount P) (chunkCount P) 0
  have hok := anchorLoop_all_full dev hdr inBuffer.asANCHOR_DOWNLOAD_CONTROL P
    (chunkCount P) (chunkCount P) 0
  refine ⟨?_, ?_, ?_, ?_⟩
  · intro i hi hbefore hbad
    exact hfail i (Nat.zero_le i) (by omega) (fun j _ h2 => hbefore j h2) hbad
  · intro hall
    rw [hok (fun j _ h2 => hall j (by omega))]
    simp
  · intro hsucc
    by_contra hnot
    have hex : ∃ m, m < chunkCount P ∧
        anchorResponse dev hdr inBuffer.asANCHOR_DOWNLOAD_CONTROL P (chunkCount P) m
          ≠ (chunkLength P (chunkCount P) m : Int) := by
      by_contra hno
      apply hnot
      intro j hj
      by_contra hne
      exact hno ⟨j, hj, hne⟩
    have hm := Nat.find_spec hex
    have hmin : ∀ j, j < Nat.find hex →
        anchorResponse dev hdr inBuffer.asANCHOR_DOWNLOAD_CONTROL P (chunkCount P) j
          = (chunkLength P (chunkCount P) j : Int) := by
      intro j hj
      by_contra hne
      exact Nat.find_min hex hj ⟨by omega, hne⟩
    rw [hfail (Nat.find hex) (Nat.zero_le _) (by omega) (fun j _ h2 => hmin j h2) hm.2] at hsucc
    revert hsucc
    simp [ERROR_GEN_FAILURE, ERROR_SUCCESS]
  · intro hall
    rw [hok (fun j _ h2 => hall j (by omega))]

/-- C2 at a concrete run: a payload of 130 bytes makes chunks of 64, 64 and
2 bytes; a device answering 64 every time fails chunk 2, after three calls. -/
theorem anchor_download_halts_at_first_mismatch_witness :
    sampleHeader.sizeof_ANCHOR_DOWNLOAD_CONTROL ≤ 2 ∧
    Hdl_ANCHOR_DOWNLOAD sampleHeader (some (constDevice 64))
        (sampleInBuffer ⟨1, 0, 0, 3, 0, 7⟩ ⟨0⟩ ⟨0, 2, 0, 1, 0, 0⟩) 2 [] 130
      = { calls := anchorCalls (constDevice 64) sampleHeader ⟨0⟩ 130 (chunkCount 130) 3,
          completion := .returned ⟨ERROR_GEN_FAILURE, none⟩, version := none } :=
  ⟨by decide,
    (anchor_download_halts_at_first_mismatch sampleHeader (constDevice 64)
      (sampleInBuffer ⟨1, 0, 0, 3, 0, 7⟩ ⟨0⟩ ⟨0, 2, 0, 1, 0, 0⟩) 2 [] 130 (by decide)).1
      2 (by decide) (by decide) (by decide)⟩

/-! ## The vendor request: the payload of a write -/

theorem std_iota_replicate (n : Nat) :
    ∀ value : Nat, std_iota (List.replicate n 0) value
      = (List.range n).map (fun k => (value + k) % 256) := by
  induction n with
  | zero => intro value; simp [std_iota]
  | succ n ih =>
    intro value
    rw [List.replicate_succ, std_iota, ih (value + 1), List.range_succ_eq_map]
    simp [toUInt8, List.map_map, Function.comp_def, Nat.add_assoc, Nat.add_comm 1]

/-- The write buffer of a request whose length is not 1 holds, at position
`k`, the value `k mod 256`. -/
theorem writeBuffer_iota (req : VENDOR_REQUEST_IN) (h : req.wLength ≠ 1) :
    writeBuffer req = (List.range req.wLength).map (fun k => k % 256) := by
  unfold writeBuffer
  rw [if_neg h, std_iota_replicate]
  simp

theorem writeBuffer_one (req : VENDOR_REQUEST_IN) (h : req.wLength = 1) :
    writeBuffer req = [req.bData] := by
  unfold writeBuffer
  rw [if_pos h, h]
  rfl

theorem writeBuffer_length (req : VENDOR_REQUEST_IN) :
    (writeBuffer req).length = req.wLength := by
  by_cases h : req.wLength = 1
  · rw [writeBuffer_one req h, h]; rfl
  · rw [writeBuffer_iota req h]; simp

/-- C3 (counterexample): a valid vendor write of length 257 passes a payload
whose byte at position 256 is 0, not 256, so the payload is not the list
0,1,…,256. -/
theorem vendor_write_wraps_at_256 :
    (writeBuffer ⟨1, 0, 0, 257, 0, 7⟩)[256]? = some 0 ∧
    (Hdl_VENDOR_REQUEST sampleHeader (some fullDevice)
        (sampleInBuffer ⟨1, 0, 0, 257, 0, 7⟩ ⟨0⟩ ⟨0, 2, 0, 1, 0, 0⟩) 10 [] 0).calls.map Call.xfer
      ≠ [Transfer.WriteControlTransfer
          (LIBUSB_REQUEST_TYPE_VENDOR ||| LIBUSB_RECIPIENT_DEVICE) 1 0 0
          (.writeBuffer (List.range 257)) 257] := by
  have hbuf : writeBuffer ⟨1, 0, 0, 257, 0, 7⟩ = (List.range 257).map (fun k => k % 256) :=
    writeBuffer_iota _ (by decide)
  have h256 : (writeBuffer ⟨1, 0, 0, 257, 0, 7⟩)[256]? = some 0 := by
    rw [hbuf]
    simp
  refine ⟨h256, ?_⟩
  intro h
  have hx : (writeBuffer ⟨1, 0, 0, 257, 0, 7⟩) = List.range 257 := by
    simpa [Hdl_VENDOR_REQUEST, sampleHeader, sampleInBuffer] using h
  rw [hx] at h256
  simp at h256

/-- C3 (amended): a valid vendor write on an attached device issues one
control-write with the request code, value and index of the request and a
payload of exactly `wLength` bytes; for length 1 the payload is the inline
byte, otherwise the byte at position `k` is `k mod 256`, which is the list
0,1,…,L−1 whenever the length is at most 256. -/
theorem vendor_write_payload (hdr : EzusbHeader) (dev : LIBUSBDevice)
    (inBuffer : InBuffer) (inBufferLen : Nat) (outBuffer : List Nat) (outBufferLen : Nat)
    (hvalid : hdr.sizeof_VENDOR_REQUEST_IN ≤ inBufferLen)
    (hdir : inBuffer.asVENDOR_REQUEST_IN.direction = 0) :
    (Hdl_VENDOR_REQUEST hdr (some dev) inBuffer inBufferLen outBuffer outBufferLen).calls.map
        Call.xfer
      = [Transfer.WriteControlTransfer
          (LIBUSB_REQUEST_TYPE_VENDOR ||| LIBUSB_RECIPIENT_DEVICE)
          inBuffer.asVENDOR_REQUEST_IN.bRequest inBuffer.asVENDOR_REQUEST_IN.wValue
          inBuffer.asVENDOR_REQUEST_IN.wIndex
          (.writeBuffer (writeBuffer inBuffer.asVENDOR_REQUEST_IN))
          inBuffer.asVENDOR_REQUEST_IN.wLength] ∧
    (writeBuffer inBuffer.asVENDOR_REQUEST_IN).length = inBuffer.asVENDOR_REQUEST_IN.wLength ∧
    (inBuffer.asVENDOR_REQUEST_IN.wLength = 1 →
      writeBuffer inBuffer.asVENDOR_REQUEST_IN = [inBuffer.asVENDOR_REQUEST_IN.bData]) ∧
    (inBuffer.asVENDOR_REQUEST_IN.wLength ≠ 1 →
      writeBuffer inBuffer.asVENDOR_REQUEST_IN
        = (List.range inBuffer.asVENDOR_REQUEST_IN.wLength).map (fun k => k % 256)) ∧
    (inBuffer.asVENDOR_REQUEST_IN.wLength ≠ 1 → inBuffer.asVENDOR_REQUEST_IN.wLength ≤ 256 →
      writeBuffer inBuffer.asVENDOR_REQUEST_IN
        = List.range inBuffer.asVENDOR_REQUEST_IN.wLength) := by
  refine ⟨?_, writeBuffer_length _, writeBuffer_one _, writeBuffer_iota _, ?_⟩
  · unfold Hdl_VENDOR_REQUEST
    rw [if_neg (by omega)]
    simp [hdir]
  · intro h1 h256
    rw [writeBuffer_iota _ h1]
    conv_rhs => rw [← List.map_id (List.range inBuffer.asVENDOR_REQUEST_IN.wLength)]
    apply List.map_congr_left
    intro k hk
    have hk2 := List.mem_range.mp hk
    simp only [id]
    exact Nat.mod_eq_of_lt (by omega)

/-- C3 (amended) at a concrete request: length 3, write direction. -/
theorem vendor_write_payload_witness :
    writeBuffer ⟨1, 0, 0, 3, 0, 7⟩ = List.range 3 :=
  (vendor_write_payload sampleHeader fullDevice
    (sampleInBuffer ⟨1, 0, 0, 3, 0, 7⟩ ⟨0⟩ ⟨0, 2, 0, 1, 0, 0⟩) 10 [] 0
    (by decide) rfl).2.2.2.2 (by decide) (by decide)

/-! ## The vendor-or-class request: the bitmask -/

/-- The single call of the vendor-or-class handler on a valid input and an
attached device. -/
theorem Hdl_VENDOR_OR_CLASS_REQUEST_valid (hdr : EzusbHeader) (dev : LIBUSBDevice)
    (inBuffer : InBuffer) (inBufferLen : Nat) (outBuffer : List Nat) (outBufferLen : Nat)
    (hvalid : hdr.sizeof_VENDOR_OR_CLASS_REQUEST_CONTROL ≤ inBufferLen) :
    (Hdl_VENDOR_OR_CLASS_REQUEST hdr (some dev) inBuffer inBufferLen outBuffer
        outBufferLen).calls.map Call.xfer
      = [vendorOrClassTransfer inBuffer.asVENDOR_OR_CLASS_REQUEST_CONTROL
          (decodeRequestType inBuffer.asVENDOR_OR_CLASS_REQUEST_CONTROL.requestType
            inBuffer.asVENDOR_OR_CLASS_REQUEST_CONTROL.recepient) outBufferLen] := by
  unfold Hdl_VENDOR_OR_CLASS_REQUEST
  rw [if_neg (by omega)]
  rfl

/-- The `switch` on the eight combinations of class or vendor with the four
recipients. -/
theorem decodeRequestType_valid (requestType recepient : Nat)
    (hrt : requestType = 1 ∨ requestType = 2) (hrc : recepient < 4) :
    decodeRequestType requestType recepient = typeBits requestType ||| recipientBits recepient := by
  have hcases : recepient = 0 ∨ recepient = 1 ∨ recepient = 2 ∨ recepient = 3 := by omega
  rcases hrt with h | h <;> rcases hcases with c | c | c | c <;> subst h <;> subst c <;> rfl

/-- C4: for a valid vendor-or-class request on an attached device whose
request type is class (1) or vendor (2) and whose recipient is device (0),
interface (1), endpoint (2) or other (3), the one transfer issued carries the
bitmask (type bits of that request type) OR (recipient bits of that
recipient), and two such combinations with the same bitmask are the same
combination, so the eight bitmasks are pairwise distinct. -/
theorem vendor_or_class_bitmask (hdr : EzusbHeader) (dev : LIBUSBDevice)
    (inBuffer : InBuffer) (inBufferLen : Nat) (outBuffer : List Nat) (outBufferLen : Nat)
    (hvalid : hdr.sizeof_VENDOR_OR_CLASS_REQUEST_CONTROL ≤ inBufferLen)
    (hrt : inBuffer.asVENDOR_OR_CLASS_REQUEST_CONTROL.requestType = 1 ∨
      inBuffer.asVENDOR_OR_CLASS_REQUEST_CONTROL.requestType = 2)
    (hrc : inBuffer.asVENDOR_OR_CLASS_REQUEST_CONTROL.recepient < 4) :
    (Hdl_VENDOR_OR_CLASS_REQUEST hdr (some dev) inBuffer inBufferLen outBuffer
        outBufferLen).calls.map Call.xfer
      = [vendorOrClassTransfer inBuffer.asVENDOR_OR_CLASS_REQUEST_CONTROL
          (typeBits inBuffer.asVENDOR_OR_CLASS_REQUEST_CONTROL.requestType |||
            recipientBits inBuffer.asVENDOR_OR_CLASS_REQUEST_CONTROL.recepient)
          outBufferLen] ∧
    (∀ requestType recepient : Nat, (requestType = 1 ∨ requestType = 2) → recepient < 4 →
      decodeRequestType requestType recepient
        = decodeRequestType inBuffer.asVENDOR_OR_CLASS_REQUEST_CONTROL.requestType
            inBuffer.asVENDOR_OR_CLASS_REQUEST_CONTROL.recepient →
      requestType = inBuffer.asVENDOR_OR_CLASS_REQUEST_CONTROL.requestType ∧
      recepient = inBuffer.asVENDOR_OR_CLASS_REQUEST_CONTROL.recepient) ∧
    [decodeRequestType 1 0, decodeRequestType 1 1, decodeRequestType 1 2,
      decodeRequestType 1 3, decodeRequestType 2 0, decodeRequestType 2 1,
      decodeRequestType 2 2, decodeRequestType 2 3]
      = [0x20, 0x21, 0x22, 0x23, 0x40, 0x41, 0x42, 0x43] := by
  refine ⟨?_, ?_, by decide⟩
  · rw [Hdl_VENDOR_OR_CLASS_REQUEST_valid hdr dev inBuffer inBufferLen outBuffer outBufferLen
      hvalid, decodeRequestType_valid _ _ hrt hrc]
  · intro rt rc hrt2 hrc2
    generalize inBuffer.asVENDOR_OR_CLASS_REQUEST_CONTROL.requestType = rt0 at hrt
    generalize inBuffer.asVENDOR_OR_CLASS_REQUEST_CONTROL.recepient = rc0 at hrc
    have c0 : rc0 = 0 ∨ rc0 = 1 ∨ rc0 = 2 ∨ rc0 = 3 := by omega
    have c1 : rc = 0 ∨ rc = 1 ∨ rc = 2 ∨ rc = 3 := by omega
    rcases hrt with a | a <;> rcases hrt2 with b | b <;>
      rcases c0 with c | c | c | c <;> rcases c1 with d | d | d | d <;>
      subst a <;> subst b <;> subst c <;> subst d <;> decide

/-- C4 at a concrete request: vendor (2) to endpoint (2), read direction. -/
theorem vendor_or_class_bitmask_witness :
    (Hdl_VENDOR_OR_CLASS_REQUEST sampleHeader (some fullDevice)
        (sampleInBuffer ⟨1, 0, 0, 3, 0, 7⟩ ⟨0⟩ ⟨1, 2, 2, 9, 5, 6⟩) 10 [] 8).calls.map Call.xfer
      = [vendorOrClassTransfer ⟨1, 2, 2, 9, 5, 6⟩ (typeBits 2 ||| recipientBits 2) 8] :=
  (vendor_or_class_bitmask sampleHeader fullDevice
    (sampleInBuffer ⟨1, 0, 0, 3, 0, 7⟩ ⟨0⟩ ⟨1, 2, 2, 9, 5, 6⟩) 10 [] 8
    (by decide) (by decide) (by decide)).1

/-- C5 (counterexample): request type 0 with recipient 4 is none of the
eight valid combinations, yet `(0 << 2) | 4` is the case label `0x04` and the
handler passes the class-to-device bitmask `0x20`, not zero. -/
theorem decode_recipient_aliases :
    ¬ ((0 : Nat) = 1 ∨ (0 : Nat) = 2) ∧
    decodeRequestType 0 4 = 0x20 ∧
    (Hdl_VENDOR_OR_CLASS_REQUEST sampleHeader (some fullDevice)
        (sampleInBuffer ⟨1, 0, 0, 3, 0, 7⟩ ⟨0⟩ ⟨0, 0, 4, 9, 5, 6⟩) 10 [] 8).calls.map Call.xfer
      = [Transfer.WriteControlTransfer 0x20 9 5 6 (.outBuffer 0) 8] := by
  decide

/-- The key of the `switch` for a recipient below 4. -/
theorem switch_key (requestType recepient : Nat) (hrc : recepient < 4) :
    (requestType <<< 2) ||| recepient = 4 * requestType + recepient := by
  have hor := Nat.mul_add_lt_is_or (show recepient < 2 ^ 2 from hrc) requestType
  rw [Nat.shiftLeft_eq, Nat.mul_comm, ← hor]

/-- The `switch` falls through to the initial zero outside the labels
`0x04 … 0x0B`. -/
theorem decodeRequestType_outside (requestType recepient : Nat)
    (h : (requestType <<< 2) ||| recepient < 4 ∨ 11 < (requestType <<< 2) ||| recepient) :
    decodeRequestType requestType recepient = 0 := by
  unfold decodeRequestType
  generalize (requestType <<< 2) ||| recepient = key at h
  split <;> first | rfl | omega

/-- C5 (amended): for every request type other than class (1) and vendor
(2) and every recipient among device, interface, endpoint, other (0 to 3),
the decoding yields the zero bitmask, and a valid request with such fields on
an attached device issues its transfer with the zero bitmask. -/
theorem decode_default_zero (hdr : EzusbHeader) (dev : LIBUSBDevice)
    (inBuffer : InBuffer) (inBufferLen : Nat) (outBuffer : List Nat) (outBufferLen : Nat)
    (hvalid : hdr.sizeof_VENDOR_OR_CLASS_REQUEST_CONTROL ≤ inBufferLen)
    (hrt : ¬ (inBuffer.asVENDOR_OR_CLASS_REQUEST_CONTROL.requestType = 1 ∨
      inBuffer.asVENDOR_OR_CLASS_REQUEST_CONTROL.requestType = 2))
    (hrc : inBuffer.asVENDOR_OR_CLASS_REQUEST_CONTROL.recepient < 4) :
    decodeRequestType inBuffer.asVENDOR_OR_CLASS_REQUEST_CONTROL.requestType
        inBuffer.asVENDOR_OR_CLASS_REQUEST_CONTROL.recepient = 0 ∧
    (Hdl_VENDOR_OR_CLASS_REQUEST hdr (some dev) inBuffer inBufferLen outBuffer
        outBufferLen).calls.map Call.xfer
      = [vendorOrClassTransfer inBuffer.asVENDOR_OR_CLASS_REQUEST_CONTROL 0 outBufferLen] := by
  have hzero : decodeRequestType inBuffer.asVENDOR_OR_CLASS_REQUEST_CONTROL.requestType
      inBuffer.asVENDOR_OR_CLASS_REQUEST_CONTROL.recepient = 0 := by
    apply decodeRequestType_outside
    rw [switch_key _ _ hrc]
    omega
  refine ⟨hzero, ?_⟩
  rw [Hdl_VENDOR_OR_CLASS_REQUEST_valid hdr dev inBuffer inBufferLen outBuffer outBufferLen
    hvalid, hzero]

/-- C5 (amended) at a concrete request: request type 3, recipient 1. -/
theorem decode_default_zero_witness :
    decodeRequestType 3 1 = 0 :=
  (decode_default_zero sampleHeader fullDevice
    (sampleInBuffer ⟨1, 0, 0, 3, 0, 7⟩ ⟨0⟩ ⟨0, 3, 1, 9, 5, 6⟩) 10 [] 8
    (by decide) (by decide) (by decide)).1

/-! ## Input-length validation -/

/-- C6: each of the vendor-request, bulk-read, bulk-write, anchor-download
and vendor-or-class handlers, given an input length below the size of its
input structure, returns invalid-parameter with no byte count and issues no
transfer, whatever the device (attached or not), the buffers and the output
length are. -/
theorem short_input_is_invalid_parameter (hdr : EzusbHeader) (GUSBDev : Option LIBUSBDevice)
    (inBuffer : InBuffer) (inBufferLen : Nat) (outBuffer : List Nat) (outBufferLen : Nat) :
    (inBufferLen < hdr.sizeof_VENDOR_REQUEST_IN →
      Hdl_VENDOR_REQUEST hdr GUSBDev inBuffer inBufferLen outBuffer outBufferLen
        = { calls := [], completion := .returned ⟨ERROR_INVALID_PARAMETER, none⟩,
            version := none }) ∧
    (inBufferLen < hdr.sizeof_BULK_TRANSFER_CONTROL →
      Hdl_BULK_READ hdr GUSBDev inBuffer inBufferLen outBuffer outBufferLen
        = { calls := [], completion := .returned ⟨ERROR_INVALID_PARAMETER, none⟩,
            version := none }) ∧
    (inBufferLen < hdr.sizeof_BULK_TRANSFER_CONTROL →
      Hdl_BULK_WRITE hdr GUSBDev inBuffer inBufferLen outBuffer outBufferLen
        = { calls := [], completion := .returned ⟨ERROR_INVALID_PARAMETER, none⟩,
            version := none }) ∧
    (inBufferLen < hdr.sizeof_ANCHOR_DOWNLOAD_CONTROL →
      Hdl_ANCHOR_DOWNLOAD hdr GUSBDev inBuffer inBufferLen outBuffer outBufferLen
        = { calls := [], completion := .returned ⟨ERROR_INVALID_PARAMETER, none⟩,
            version := none }) ∧
    (inBufferLen < hdr.sizeof_VENDOR_OR_CLASS_REQUEST_CONTROL →
      Hdl_VENDOR_OR_CLASS_REQUEST hdr GUSBDev inBuffer inBufferLen outBuffer outBufferLen
        = { calls := [], completion := .returned ⟨ERROR_INVALID_PARAMETER, none⟩,
            version := none }) := by
  refine ⟨?_, ?_, ?_, ?_, ?_⟩ <;> intro h
  · unfold Hdl_VENDOR_REQUEST; rw [if_pos h]; rfl
  · unfold Hdl_BULK_READ; rw [if_pos h]; rfl
  · unfold Hdl_BULK_WRITE; rw [if_pos h]; rfl
  · unfold Hdl_ANCHOR_DOWNLOAD; rw [if_pos h]; rfl
  · unfold Hdl_VENDOR_OR_CLASS_REQUEST; rw [if_pos h]; rfl

/-- C6 at concrete runs: every handler one byte short of its structure. -/
theorem short_input_is_invalid_parameter_witness :
    Hdl_VENDOR_REQUEST sampleHeader (some fullDevice)
        (sampleInBuffer ⟨1, 0, 0, 3, 1, 7⟩ ⟨0⟩ ⟨1, 2, 2, 9, 5, 6⟩) 1 [] 8
      = { calls := [], completion := .returned ⟨ERROR_INVALID_PARAMETER, none⟩,
          version := none } ∧
    Hdl_ANCHOR_DOWNLOAD sampleHeader (some fullDevice)
        (sampleInBuffer ⟨1, 0, 0, 3, 1, 7⟩ ⟨0⟩ ⟨1, 2, 2, 9, 5, 6⟩) 1 [] 8
      = { calls := [], completion := .returned ⟨ERROR_INVALID_PARAMETER, none⟩,
          version := none } :=
  ⟨(short_input_is_invalid_parameter sampleHeader (some fullDevice)
      (sampleInBuffer ⟨1, 0, 0, 3, 1, 7⟩ ⟨0⟩ ⟨1, 2, 2, 9, 5, 6⟩) 1 [] 8).1 (by decide),
    (short_input_is_invalid_parameter sampleHeader (some fullDevice)
      (sampleInBuffer ⟨1, 0, 0, 3, 1, 7⟩ ⟨0⟩ ⟨1, 2, 2, 9, 5, 6⟩) 1 [] 8).2.2.2.1 (by decide)⟩

/-! ## The driver-version query -/

/-- C7: the driver-version handler, for an output length below the size of
the version record, returns general-failure (which is not invalid-parameter)
with no byte count, no transfer and nothing stored; for any other output
length, the size itself included, it returns success with the record size as
byte count and stores the major, minor and build constants.  The device, the
input buffer, the input length and the output buffer do not enter the
result. -/
theorem driver_version_query (hdr : EzusbHeader) (GUSBDev : Option LIBUSBDevice)
    (inBuffer : InBuffer) (inBufferLen : Nat) (outBuffer : List Nat) (outBufferLen : Nat)
    (hsize : hdr.sizeof_EZUSB_DRIVER_VERSION < 4294967296) :
    (outBufferLen < hdr.sizeof_EZUSB_DRIVER_VERSION →
      Hdl_GET_DRIVER_VERSION hdr GUSBDev inBuffer inBufferLen outBuffer outBufferLen
        = { calls := [], completion := .returned ⟨ERROR_GEN_FAILURE, none⟩,
            version := none }) ∧
    (hdr.sizeof_EZUSB_DRIVER_VERSION ≤ outBufferLen →
      Hdl_GET_DRIVER_VERSION hdr GUSBDev inBuffer inBufferLen outBuffer outBufferLen
        = { calls := [],
            completion := .returned ⟨ERROR_SUCCESS, some hdr.sizeof_EZUSB_DRIVER_VERSION⟩,
            version := some
              ⟨hdr.EZUSB_MAJOR_VERSION, hdr.EZUSB_MINOR_VERSION, hdr.EZUSB_BUILD_VERSION⟩ }) ∧
    ERROR_GEN_FAILURE ≠ ERROR_INVALID_PARAMETER ∧
    (∀ (GUSBDev2 : Option LIBUSBDevice) (inBuffer2 : InBuffer) (inBufferLen2 : Nat)
        (outBuffer2 : List Nat),
      Hdl_GET_DRIVER_VERSION hdr GUSBDev2 inBuffer2 inBufferLen2 outBuffer2 outBufferLen
        = Hdl_GET_DRIVER_VERSION hdr GUSBDev inBuffer inBufferLen outBuffer outBufferLen) := by
  refine ⟨?_, ?_, by decide, ?_⟩
  · intro h
    unfold Hdl_GET_DRIVER_VERSION
    rw [if_pos h]
    rfl
  · intro h
    unfold Hdl_GET_DRIVER_VERSION
    rw [if_neg (by omega)]
    have hcast : toDWORD (hdr.sizeof_EZUSB_DRIVER_VERSION : Int)
        = hdr.sizeof_EZUSB_DRIVER_VERSION := by
      unfold toDWORD
      omega
    rw [hcast]
  · intro _ _ _ _
    rfl

/-- C7 at the boundary: with a record of 6 bytes, an output length of 5
fails with general-failure and an output length of 6 succeeds with byte
count 6. -/
theorem driver_version_query_witness :
    Hdl_GET_DRIVER_VERSION sampleHeader none
        (sampleInBuffer ⟨1, 0, 0, 3, 1, 7⟩ ⟨0⟩ ⟨1, 2, 2, 9, 5, 6⟩) 0 [] 5
      = { calls := [], completion := .returned ⟨ERROR_GEN_FAILURE, none⟩, version := none } ∧
    Hdl_GET_DRIVER_VERSION sampleHeader none
        (sampleInBuffer ⟨1, 0, 0, 3, 1, 7⟩ ⟨0⟩ ⟨1, 2, 2, 9, 5, 6⟩) 0 [] 6
      = { calls := [], completion := .returned ⟨ERROR_SUCCESS, some 6⟩,
          version := some ⟨1, 30, 0⟩ } :=
  ⟨(driver_version_query sampleHeader none
      (sampleInBuffer ⟨1, 0, 0, 3, 1, 7⟩ ⟨0⟩ ⟨1, 2, 2, 9, 5, 6⟩) 0 [] 5 (by decide)).1
      (by decide),
    (driver_version_query sampleHeader none
      (sampleInBuffer ⟨1, 0, 0, 3, 1, 7⟩ ⟨0⟩ ⟨1, 2, 2, 9, 5, 6⟩) 0 [] 6 (by decide)).2.1
      (by decide)⟩

/-! ## The vendor request: status and byte count -/

/-- The run of the vendor-request handler on a valid read request. -/
theorem Hdl_VENDOR_REQUEST_read (hdr : EzusbHeader) (dev : LIBUSBDevice)
    (inBuffer : InBuffer) (inBufferLen : Nat) (outBuffer : List Nat) (outBufferLen : Nat)
    (hvalid : hdr.sizeof_VENDOR_REQUEST_IN ≤ inBufferLen)
    (hdir : inBuffer.asVENDOR_REQUEST_IN.direction ≠ 0) :
    Hdl_VENDOR_REQUEST hdr (some dev) inBuffer inBufferLen outBuffer outBufferLen
      = { calls := [⟨vendorReadTransfer inBuffer.asVENDOR_REQUEST_IN,
            (dev.respond [] (vendorReadTransfer inBuffer.asVENDOR_REQUEST_IN)).ret⟩],
          completion := .returned (vendorReturn
            (dev.respond [] (vendorReadTransfer inBuffer.asVENDOR_REQUEST_IN)).ret),
          version := none } := by
  unfold Hdl_VENDOR_REQUEST
  rw [if_neg (by omega)]
  simp only [if_pos hdir]
  rfl

/-- The run of the vendor-request handler on a valid write request. -/
theorem Hdl_VENDOR_REQUEST_write (hdr : EzusbHeader) (dev : LIBUSBDevice)
    (inBuffer : InBuffer) (inBufferLen : Nat) (outBuffer : List Nat) (outBufferLen : Nat)
    (hvalid : hdr.sizeof_VENDOR_REQUEST_IN ≤ inBufferLen)
    (hdir : inBuffer.asVENDOR_REQUEST_IN.direction = 0) :
    Hdl_VENDOR_REQUEST hdr (some dev) inBuffer inBufferLen outBuffer outBufferLen
      = { calls := [⟨vendorWriteTransfer inBuffer.asVENDOR_REQUEST_IN,
            (dev.respond [] (vendorWriteTransfer inBuffer.asVENDOR_REQUEST_IN)).ret⟩],
          completion := .returned (vendorReturn
            (max (dev.respond [] (vendorWriteTransfer inBuffer.asVENDOR_REQUEST_IN)).ret 0)),
          version := none } := by
  unfold Hdl_VENDOR_REQUEST
  rw [if_neg (by omega)]
  simp only [hdir, ne_eq, not_true_eq_false, if_false]
  rfl

theorem vendorReturn_pos (status : Int) (hpos : 0 < status) (hint : status ≤ 2147483647) :
    vendorReturn status = ⟨ERROR_SUCCESS, some status.toNat⟩ := by
  unfold vendorReturn
  rw [if_pos hpos]
  have hcast : toDWORD status = status.toNat := by
    unfold toDWORD
    omega
  rw [hcast]

theorem vendorReturn_nonpos (status : Int) (h : status ≤ 0) :
    vendorReturn status = ⟨ERROR_SUCCESS, none⟩ := by
  unfold vendorReturn
  rw [if_neg (by omega)]

/-- C10: a valid vendor request on an attached device, where `r` is the
`int` the primitive returns.  With read direction the handler issues one
control-read of `wLength` bytes into the input buffer, with type vendor,
recipient device and the request code, value and index of the request, and
returns success with byte count `r` if `r > 0` and success with no byte count
if `r ≤ 0`.  With write direction it returns success with byte count
`max r 0` if that is positive and success with no byte count otherwise. -/
theorem vendor_request_result (hdr : EzusbHeader) (dev : LIBUSBDevice)
    (inBuffer : InBuffer) (inBufferLen : Nat) (outBuffer : List Nat) (outBufferLen : Nat)
    (hvalid : hdr.sizeof_VENDOR_REQUEST_IN ≤ inBufferLen) :
    (inBuffer.asVENDOR_REQUEST_IN.direction ≠ 0 →
      (Hdl_VENDOR_REQUEST hdr (some dev) inBuffer inBufferLen outBuffer outBufferLen).calls.map
          Call.xfer
        = [Transfer.ReadControlTransfer
            (LIBUSB_REQUEST_TYPE_VENDOR ||| LIBUSB_RECIPIENT_DEVICE)
            inBuffer.asVENDOR_REQUEST_IN.bRequest inBuffer.asVENDOR_REQUEST_IN.wValue
            inBuffer.asVENDOR_REQUEST_IN.wIndex .inBuffer
            inBuffer.asVENDOR_REQUEST_IN.wLength] ∧
      (∀ r : Int, (dev.respond [] (vendorReadTransfer inBuffer.asVENDOR_REQUEST_IN)).ret = r →
        (0 < r → r ≤ 2147483647 →
          (Hdl_VENDOR_REQUEST hdr (some dev) inBuffer inBufferLen outBuffer
              outBufferLen).completion
            = .returned ⟨ERROR_SUCCESS, some r.toNat⟩) ∧
        (r ≤ 0 →
          (Hdl_VENDOR_REQUEST hdr (some dev) inBuffer inBufferLen outBuffer
              outBufferLen).completion
            = .returned ⟨ERROR_SUCCESS, none⟩))) ∧
    (inBuffer.asVENDOR_REQUEST_IN.direction = 0 →
      ∀ r : Int, (dev.respond [] (vendorWriteTransfer inBuffer.asVENDOR_REQUEST_IN)).ret = r →
        (0 < max r 0 → r ≤ 2147483647 →
          (Hdl_VENDOR_REQUEST hdr (some dev) inBuffer inBufferLen outBuffer
              outBufferLen).completion
            = .returned ⟨ERROR_SUCCESS, some (max r 0).toNat⟩) ∧
        (max r 0 ≤ 0 →
          (Hdl_VENDOR_REQUEST hdr (some dev) inBuffer inBufferLen outBuffer
              outBufferLen).completion
            = .returned ⟨ERROR_SUCCESS, none⟩)) := by
  constructor
  · intro hdir
    rw [Hdl_VENDOR_REQUEST_read hdr dev inBuffer inBufferLen outBuffer outBufferLen hvalid hdir]
    refine ⟨rfl, ?_⟩
    intro r hr
    simp only [hr]
    exact ⟨fun hpos hint => by rw [vendorReturn_pos r hpos hint],
      fun hle => by rw [vendorReturn_nonpos r hle]⟩
  · intro hdir r hr
    rw [Hdl_VENDOR_REQUEST_write hdr dev inBuffer inBufferLen outBuffer outBufferLen hvalid hdir]
    simp only [hr]
    exact ⟨fun hpos hint => by rw [vendorReturn_pos (max r 0) hpos (by omega)],
      fun hle => by rw [vendorReturn_nonpos (max r 0) hle]⟩

/-- C10 at concrete runs: a read answered with 5 reports byte count 5, a
write answered with −1 reports success with no byte count. -/
theorem vendor_request_result_witness :
    (Hdl_VENDOR_REQUEST sampleHeader (some (constDevice 5))
        (sampleInBuffer ⟨1, 0, 0, 8, 1, 7⟩ ⟨0⟩ ⟨1, 2, 2, 9, 5, 6⟩) 10 [] 0).completion
      = .returned ⟨ERROR_SUCCESS, some 5⟩ ∧
    (Hdl_VENDOR_REQUEST sampleHeader (some (constDevice (-1)))
        (sampleInBuffer ⟨1, 0, 0, 8, 0, 7⟩ ⟨0⟩ ⟨1, 2, 2, 9, 5, 6⟩) 10 [] 0).completion
      = .returned ⟨ERROR_SUCCESS, none⟩ :=
  ⟨(((vendor_request_result sampleHeader (constDevice 5)
      (sampleInBuffer ⟨1, 0, 0, 8, 1, 7⟩ ⟨0⟩ ⟨1, 2, 2, 9, 5, 6⟩) 10 [] 0 (by decide)).1
      (by decide)).2 5 rfl).1 (by decide) (by decide),
    ((vendor_request_result sampleHeader (constDevice (-1))
      (sampleInBuffer ⟨1, 0, 0, 8, 0, 7⟩ ⟨0⟩ ⟨1, 2, 2, 9, 5, 6⟩) 10 [] 0 (by decide)).2
      rfl (-1) rfl).2 (by decide)⟩

/-! ## Which results carry a byte count -/

/-- The anchor-download loop never returns a byte count. -/
theorem anchorLoop_no_byte_count (hdr : EzusbHeader) (GUSBDev : Option LIBUSBDevice)
    (req : ANCHOR_DOWNLOAD_CONTROL) (P n : Nat) :
    ∀ (k i : Nat) (calls : List Call) (r : ioctl_handler_return_t),
      (anchorLoop hdr GUSBDev req P n k i calls).completion = .returned r →
      r.bytesReturned = none := by
  intro k
  induction k with
  | zero =>
    intro i calls r h
    simp only [anchorLoop, Completion.returned.injEq] at h
    rw [← h]
  | succ k ih =>
    intro i calls r h
    cases GUSBDev with
    | none => simp [anchorLoop] at h
    | some dev =>
      simp only [anchorLoop] at h
      split at h
      · simp only [Completion.returned.injEq] at h
        rw [← h]
      · exact ih _ _ r h

/-- C8 (failing input): dispatching the vendor request of the scenario
(write direction, request code 1, value 0, index 0, length 3) to a device that
transfers the three bytes invokes the control-write with payload 0,1,2 and
request code 1, returns success, and the result carries the byte count 3,
which the dispatcher stores in the caller's bytes-returned location. -/
theorem dispatch_vendor_write_reports_count (hdr : EzusbHeader) (bData before : Nat)
    (a : ANCHOR_DOWNLOAD_CONTROL) (c : VENDOR_OR_CLASS_REQUEST_CONTROL)
    (outBuffer : List Nat) (outBufferLen : Nat) :
    TranslateIOTCL hdr (some fullDevice) IOCTL.Ezusb_VENDOR_REQUEST
        (sampleInBuffer ⟨1, 0, 0, 3, 0, bData⟩ a c) hdr.sizeof_VENDOR_REQUEST_IN
        outBuffer outBufferLen (some before)
      = { handler := some
            { calls := [⟨Transfer.WriteControlTransfer 0x40 1 0 0 (.writeBuffer [0, 1, 2]) 3, 3⟩],
              completion := .returned ⟨ERROR_SUCCESS, some 3⟩,
              version := none },
          status := some ERROR_SUCCESS,
          bytesReturned := some 3 } := by
  have hrun := Hdl_VENDOR_REQUEST_write hdr fullDevice
    (sampleInBuffer ⟨1, 0, 0, 3, 0, bData⟩ a c) hdr.sizeof_VENDOR_REQUEST_IN
    outBuffer outBufferLen (Nat.le_refl _) rfl
  simp only [TranslateIOTCL, ioctl_handler_map, hrun]
  rfl

/-- A result of the dispatcher carries a byte count only for the vendor
request and the driver-version query. -/
theorem dispatch_byte_count_opcodes (hdr : EzusbHeader) (GUSBDev : Option LIBUSBDevice)
    (dwIOCTL : IOCTL) (inBuffer : InBuffer) (inBufferLen : Nat) (outBuffer : List Nat)
    (outBufferLen : Nat) (lpBytesReturned : Option Nat) (run : HandlerRun)
    (r : ioctl_handler_return_t) (count : Nat)
    (hrun : (TranslateIOTCL hdr GUSBDev dwIOCTL inBuffer inBufferLen outBuffer outBufferLen
      lpBytesReturned).handler = some run)
    (hret : run.completion = .returned r) (hcount : r.bytesReturned = some count) :
    dwIOCTL = IOCTL.Ezusb_VENDOR_REQUEST ∨ dwIOCTL = IOCTL.EZUSB_GET_DRIVER_VERSION := by
  have hhandler : ∀ hdl : ioctl_handler_t, ioctl_handler_map dwIOCTL = some hdl →
      run = hdl hdr GUSBDev inBuffer inBufferLen outBuffer outBufferLen := by
    intro hdl hmap
    simp only [TranslateIOTCL, hmap] at hrun
    split at hrun
    · simpa using hrun.symm
    · split at hrun <;> simpa using hrun.symm
  have hbulk : ∀ err : Int, (bulkReturn err).bytesReturned = none := by
    intro err
    unfold bulkReturn
    split <;> rfl
  have hvoc : ∀ status : Int, (vendorOrClassReturn status).bytesReturned = none := by
    intro status
    unfold vendorOrClassReturn
    split <;> rfl
  cases dwIOCTL with
  | Ezusb_VENDOR_REQUEST => exact Or.inl rfl
  | EZUSB_GET_DRIVER_VERSION => exact Or.inr rfl
  | Ezusb_GET_CURRENT_CONFIG => simp [TranslateIOTCL, ioctl_handler_map] at hrun
  | other code => simp [TranslateIOTCL, ioctl_handler_map] at hrun
  | Ezusb_RESETPIPE =>
    have h := hhandler Hdl_RESETPIPE rfl
    subst h
    simp only [Hdl_RESETPIPE, returnOnly, Completion.returned.injEq] at hret
    rw [← hret] at hcount
    simp at hcount
  | Ezusb_ABORTPIPE =>
    have h := hhandler Hdl_ABORTPIPE rfl
    subst h
    simp only [Hdl_ABORTPIPE, returnOnly, Completion.returned.injEq] at hret
    rw [← hret] at hcount
    simp at hcount
  | EZUSB_BULK_READ =>
    have h := hhandler Hdl_BULK_READ rfl
    subst h
    unfold Hdl_BULK_READ at hret
    split at hret
    · simp only [returnOnly, Completion.returned.injEq] at hret
      rw [← hret] at hcount
      simp at hcount
    · cases GUSBDev with
      | none => simp at hret
      | some dev =>
        simp only [Completion.returned.injEq] at hret
        rw [← hret, hbulk] at hcount
        simp at hcount
  | EZUSB_BULK_WRITE =>
    have h := hhandler Hdl_BULK_WRITE rfl
    subst h
    unfold Hdl_BULK_WRITE at hret
    split at hret
    · simp only [returnOnly, Completion.returned.injEq] at hret
      rw [← hret] at hcount
      simp at hcount
    · cases GUSBDev with
      | none => simp at hret
      | some dev =>
        simp only [Completion.returned.injEq] at hret
        rw [← hret, hbulk] at hcount
        simp at hcount
  | EZUSB_VENDOR_OR_CLASS_REQUEST =>
    have h := hhandler Hdl_VENDOR_OR_CLASS_REQUEST rfl
    subst h
    unfold Hdl_VENDOR_OR_CLASS_REQUEST at hret
    split at hret
    · simp only [returnOnly, Completion.returned.injEq] at hret
      rw [← hret] at hcount
      simp at hcount
    · cases GUSBDev with
      | none => simp at hret
      | some dev =>
        simp only [Completion.returned.injEq] at hret
        rw [← hret, hvoc] at hcount
        simp at hcount
  | EZUSB_ANCHOR_DOWNLOAD =>
    have h := hhandler Hdl_ANCHOR_DOWNLOAD rfl
    subst h
    unfold Hdl_ANCHOR_DOWNLOAD at hret
    split at hret
    · simp only [returnOnly, Completion.returned.injEq] at hret
      rw [← hret] at hcount
      simp at hcount
    · have hnone := anchorLoop_no_byte_count hdr GUSBDev _ _ _ _ _ _ r hret
      rw [hnone] at hcount
      simp at hcount

/-! ## Errors of the transfer primitive -/

/-- The intended length of a chunk is never negative, so a negative return
is a mismatch. -/
theorem anchorLoop_negative_return (hdr : EzusbHeader) (dev : LIBUSBDevice)
    (req : ANCHOR_DOWNLOAD_CONTROL) (P n : Nat) :
    ∀ (k i : Nat) (calls : List Call), (∀ c ∈ calls, 0 ≤ c.ret) →
      (∃ c ∈ (anchorLoop hdr (some dev) req P n k i calls).calls, c.ret < 0) →
      (anchorLoop hdr (some dev) req P n k i calls).completion
        = .returned ⟨ERROR_GEN_FAILURE, none⟩ := by
  intro k
  induction k with
  | zero =>
    intro i calls hcalls hneg
    obtain ⟨c, hc, hlt⟩ := hneg
    simp only [anchorLoop] at hc
    have := hcalls c hc
    omega
  | succ k ih =>
    intro i calls hcalls hneg
    simp only [anchorLoop] at hneg ⊢
    split
    · rfl
    · rename_i hfull
      rw [if_neg hfull] at hneg
      apply ih (i + 1) _ _ hneg
      intro c hc
      rcases List.mem_append.mp hc with h | h
      · exact hcalls c h
      · have hceq : c = ⟨chunkTransfer hdr req P n i,
            (dev.respond (calls.map Call.xfer) (chunkTransfer hdr req P n i)).ret⟩ := by
          simpa using h
        rw [hceq]
        have hval : (dev.respond (calls.map Call.xfer) (chunkTransfer hdr req P n i)).ret
            = (chunkLength P n i : Int) := by
          by_contra hne
          exact hfull hne
        simp only [hval]
        omega

/-- C9 (counterexample): a valid vendor request, read or write, whose
control transfer returns the error −1 makes the handler return success, not
general-failure. -/
theorem vendor_request_swallows_error :
    (Hdl_VENDOR_REQUEST sampleHeader (some (constDevice (-1)))
        (sampleInBuffer ⟨1, 0, 0, 8, 1, 7⟩ ⟨0⟩ ⟨1, 2, 2, 9, 5, 6⟩) 10 [] 0)
      = { calls := [⟨Transfer.ReadControlTransfer 0x40 1 0 0 .inBuffer 8, -1⟩],
          completion := .returned ⟨ERROR_SUCCESS, none⟩, version := none } ∧
    (Hdl_VENDOR_REQUEST sampleHeader (some (constDevice (-1)))
        (sampleInBuffer ⟨1, 0, 0, 3, 0, 7⟩ ⟨0⟩ ⟨1, 2, 2, 9, 5, 6⟩) 10 [] 0)
      = { calls := [⟨Transfer.WriteControlTransfer 0x40 1 0 0 (.writeBuffer [0, 1, 2]) 3, -1⟩],
          completion := .returned ⟨ERROR_SUCCESS, none⟩, version := none } ∧
    ERROR_SUCCESS ≠ ERROR_GEN_FAILURE := by
  decide

/-- C9 (amended): on a valid input and an attached device, the bulk-read
and bulk-write handlers return general-failure when the bulk transfer returns
a status other than `LIBUSB_SUCCESS`, the vendor-or-class handler returns
general-failure when its control transfer returns a negative value, and the
anchor-download handler returns general-failure when one of the control-writes
it issued returned a negative value; the vendor-request handler, in either
direction, returns success with no byte count when its control transfer
returns a negative value. -/
theorem primitive_error_result (hdr : EzusbHeader) (dev : LIBUSBDevice)
    (inBuffer : InBuffer) (inBufferLen : Nat) (outBuffer : List Nat) (outBufferLen : Nat) :
    (hdr.sizeof_BULK_TRANSFER_CONTROL ≤ inBufferLen →
      (dev.respond [] (Transfer.ReadBulkTransfer inBuffer.asBULK_TRANSFER_CONTROL.pipeNum
        (.outBuffer 0) outBufferLen)).ret ≠ LIBUSB_SUCCESS →
      (Hdl_BULK_READ hdr (some dev) inBuffer inBufferLen outBuffer outBufferLen).completion
        = .returned ⟨ERROR_GEN_FAILURE, none⟩) ∧
    (hdr.sizeof_BULK_TRANSFER_CONTROL ≤ inBufferLen →
      (dev.respond [] (Transfer.WriteBulkTransfer inBuffer.asBULK_TRANSFER_CONTROL.pipeNum
        (.outBuffer 0) outBufferLen)).ret ≠ LIBUSB_SUCCESS →
      (Hdl_BULK_WRITE hdr (some dev) inBuffer inBufferLen outBuffer outBufferLen).completion
        = .returned ⟨ERROR_GEN_FAILURE, none⟩) ∧
    (hdr.sizeof_VENDOR_OR_CLASS_REQUEST_CONTROL ≤ inBufferLen →
      (dev.respond [] (vendorOrClassTransfer inBuffer.asVENDOR_OR_CLASS_REQUEST_CONTROL
        (decodeRequestType inBuffer.asVENDOR_OR_CLASS_REQUEST_CONTROL.requestType
          inBuffer.asVENDOR_OR_CLASS_REQUEST_CONTROL.recepient) outBufferLen)).ret < 0 →
      (Hdl_VENDOR_OR_CLASS_REQUEST hdr (some dev) inBuffer inBufferLen outBuffer
          outBufferLen).completion
        = .returned ⟨ERROR_GEN_FAILURE, none⟩) ∧
    (hdr.sizeof_ANCHOR_DOWNLOAD_CONTROL ≤ inBufferLen →
      (∃ c ∈ (Hdl_ANCHOR_DOWNLOAD hdr (some dev) inBuffer inBufferLen outBuffer
          outBufferLen).calls, c.ret < 0) →
      (Hdl_ANCHOR_DOWNLOAD hdr (some dev) inBuffer inBufferLen outBuffer
          outBufferLen).completion
        = .returned ⟨ERROR_GEN_FAILURE, none⟩) ∧
    (hdr.sizeof_VENDOR_REQUEST_IN ≤ inBufferLen →
      inBuffer.asVENDOR_REQUEST_IN.direction ≠ 0 →
      (dev.respond [] (vendorReadTransfer inBuffer.asVENDOR_REQUEST_IN)).ret < 0 →
      (Hdl_VENDOR_REQUEST hdr (some dev) inBuffer inBufferLen outBuffer outBufferLen).completion
        = .returned ⟨ERROR_SUCCESS, none⟩) ∧
    (hdr.sizeof_VENDOR_REQUEST_IN ≤ inBufferLen →
      inBuffer.asVENDOR_REQUEST_IN.direction = 0 →
      (dev.respond [] (vendorWriteTransfer inBuffer.asVENDOR_REQUEST_IN)).ret < 0 →
      (Hdl_VENDOR_REQUEST hdr (some dev) inBuffer inBufferLen outBuffer outBufferLen).completion
        = .returned ⟨ERROR_SUCCESS, none⟩) := by
  refine ⟨?_, ?_, ?_, ?_, ?_, ?_⟩
  · intro hvalid herr
    unfold Hdl_BULK_READ
    rw [if_neg (by omega)]
    simp only [bulkReturn]
    rw [if_neg herr]
  · intro hvalid herr
    unfold Hdl_BULK_WRITE
    rw [if_neg (by omega)]
    simp only [bulkReturn]
    rw [if_neg herr]
  · intro hvalid herr
    unfold Hdl_VENDOR_OR_CLASS_REQUEST
    rw [if_neg (by omega)]
    unfold vendorOrClassTransfer at herr
    simp only [vendorOrClassReturn]
    rw [if_neg (by omega)]
  · intro hvalid hneg
    rw [Hdl_ANCHOR_DOWNLOAD_valid hdr dev inBuffer inBufferLen outBuffer outBufferLen hvalid]
      at hneg ⊢
    exact anchorLoop_negative_return hdr dev _ _ _ _ _ _ (by simp [anchorCalls]) hneg
  · intro hvalid hdir herr
    rw [Hdl_VENDOR_REQUEST_read hdr dev inBuffer inBufferLen outBuffer outBufferLen hvalid hdir,
      vendorReturn_nonpos _ (by omega)]
  · intro hvalid hdir herr
    rw [Hdl_VENDOR_REQUEST_write hdr dev inBuffer inBufferLen outBuffer outBufferLen hvalid hdir,
      vendorReturn_nonpos _ (by omega)]

/-- C9 (amended) at concrete runs: a bulk read answered with −4 and an
anchor download whose first chunk is answered with −1 both return
general-failure. -/
theorem primitive_error_result_witness :
    (Hdl_BULK_READ sampleHeader (some (constDevice (-4)))
        (sampleInBuffer ⟨1, 0, 0, 8, 1, 7⟩ ⟨0⟩ ⟨1, 2, 2, 9, 5, 6⟩) 10 [] 512).completion
      = .returned ⟨ERROR_GEN_FAILURE, none⟩ ∧
    (Hdl_ANCHOR_DOWNLOAD sampleHeader (some (constDevice (-1)))
        (sampleInBuffer ⟨1, 0, 0, 8, 1, 7⟩ ⟨0⟩ ⟨1, 2, 2, 9, 5, 6⟩) 10 [] 130).completion
      = .returned ⟨ERROR_GEN_FAILURE, none⟩ :=
  ⟨(primitive_error_result sampleHeader (constDevice (-4))
      (sampleInBuffer ⟨1, 0, 0, 8, 1, 7⟩ ⟨0⟩ ⟨1, 2, 2, 9, 5, 6⟩) 10 [] 512).1
      (by decide) (by decide),
    (primitive_error_result sampleHeader (constDevice (-1))
      (sampleInBuffer ⟨1, 0, 0, 8, 1, 7⟩ ⟨0⟩ ⟨1, 2, 2, 9, 5, 6⟩) 10 [] 130).2.2.2.1
      (by decide) (by decide)⟩

/-! ## The device is not attached -/

/-- C11 (counterexample): with no device attached, a valid bulk read does
not return general-failure; `GUSBDev.value()` throws and the handler returns
nothing, and the dispatcher lets the exception through. -/
theorem detached_device_throws :
    Hdl_BULK_READ sampleHeader none
        (sampleInBuffer ⟨1, 0, 0, 8, 1, 7⟩ ⟨0⟩ ⟨1, 2, 2, 9, 5, 6⟩) 4 [] 512
      = { calls := [], completion := .bad_optional_access, version := none } ∧
    Completion.bad_optional_access ≠ Completion.returned ⟨ERROR_GEN_FAILURE, none⟩ ∧
    (TranslateIOTCL sampleHeader none IOCTL.EZUSB_BULK_READ
        (sampleInBuffer ⟨1, 0, 0, 8, 1, 7⟩ ⟨0⟩ ⟨1, 2, 2, 9, 5, 6⟩) 4 [] 512 (some 0)).status
      = none := by
  decide

/-- C11 (amended): with no device attached and a valid input, the
vendor-request (either direction), bulk-read, bulk-write and vendor-or-class
handlers, and the anchor-download handler when its chunk count is not zero
(as for every payload length from 1 to 4294967232), issue no transfer and
complete by the exception `std::bad_optional_access` of `GUSBDev.value()`
instead of returning a result. -/
theorem detached_device_result (hdr : EzusbHeader) (inBuffer : InBuffer)
    (inBufferLen : Nat) (outBuffer : List Nat) (outBufferLen : Nat) :
    (hdr.sizeof_VENDOR_REQUEST_IN ≤ inBufferLen →
      Hdl_VENDOR_REQUEST hdr none inBuffer inBufferLen outBuffer outBufferLen
        = { calls := [], completion := .bad_optional_access, version := none }) ∧
    (hdr.sizeof_BULK_TRANSFER_CONTROL ≤ inBufferLen →
      Hdl_BULK_READ hdr none inBuffer inBufferLen outBuffer outBufferLen
        = { calls := [], completion := .bad_optional_access, version := none }) ∧
    (hdr.sizeof_BULK_TRANSFER_CONTROL ≤ inBufferLen →
      Hdl_BULK_WRITE hdr none inBuffer inBufferLen outBuffer outBufferLen
        = { calls := [], completion := .bad_optional_access, version := none }) ∧
    (hdr.sizeof_VENDOR_OR_CLASS_REQUEST_CONTROL ≤ inBufferLen →
      Hdl_VENDOR_OR_CLASS_REQUEST hdr none inBuffer inBufferLen outBuffer outBufferLen
        = { calls := [], completion := .bad_optional_access, version := none }) ∧
    (hdr.sizeof_ANCHOR_DOWNLOAD_CONTROL ≤ inBufferLen → 0 < chunkCount outBufferLen →
      Hdl_ANCHOR_DOWNLOAD hdr none inBuffer inBufferLen outBuffer outBufferLen
        = { calls := [], completion := .bad_optional_access, version := none }) ∧
    (0 < outBufferLen → outBufferLen ≤ 4294967232 → 0 < chunkCount outBufferLen) := by
  refine ⟨?_, ?_, ?_, ?_, ?_, ?_⟩
  · intro hvalid
    unfold Hdl_VENDOR_REQUEST
    rw [if_neg (by omega)]
    by_cases hdir : inBuffer.asVENDOR_REQUEST_IN.direction = 0
    · simp [hdir]
    · simp [hdir]
  · intro hvalid
    unfold Hdl_BULK_READ
    rw [if_neg (by omega)]
  · intro hvalid
    unfold Hdl_BULK_WRITE
    rw [if_neg (by omega)]
  · intro hvalid
    unfold Hdl_VENDOR_OR_CLASS_REQUEST
    rw [if_neg (by omega)]
  · intro hvalid hcount
    unfold Hdl_ANCHOR_DOWNLOAD
    rw [if_neg (by omega)]
    obtain ⟨k, hk⟩ : ∃ k, chunkCount outBufferLen = k + 1 := ⟨chunkCount outBufferLen - 1, by omega⟩
    simp only []
    generalize hn : chunkCount outBufferLen = n at hk
    subst hk
    rfl
  · intro hpos hle
    rw [chunkCount_in_range outBufferLen (by omega)]
    omega

/-- C11 (amended) at concrete runs: a vendor write and an anchor download of
130 bytes with no device attached. -/
theorem detached_device_result_witness :
    Hdl_VENDOR_REQUEST sampleHeader none
        (sampleInBuffer ⟨1, 0, 0, 3, 0, 7⟩ ⟨0⟩ ⟨1, 2, 2, 9, 5, 6⟩) 10 [] 0
      = { calls := [], completion := .bad_optional_access, version := none } ∧
    Hdl_ANCHOR_DOWNLOAD sampleHeader none
        (sampleInBuffer ⟨1, 0, 0, 3, 0, 7⟩ ⟨0⟩ ⟨1, 2, 2, 9, 5, 6⟩) 2 [] 130
      = { calls := [], completion := .bad_optional_access, version := none } :=
  ⟨(detached_device_result sampleHeader
      (sampleInBuffer ⟨1, 0, 0, 3, 0, 7⟩ ⟨0⟩ ⟨1, 2, 2, 9, 5, 6⟩) 10 [] 0).1 (by decide),
    (detached_device_result sampleHeader
      (sampleInBuffer ⟨1, 0, 0, 3, 0, 7⟩ ⟨0⟩ ⟨1, 2, 2, 9, 5, 6⟩) 2 [] 130).2.2.2.2.1
      (by decide) (by decide)⟩

/-! ## Bulk transfers -/

/-- The run of the bulk-read handler on a valid input. -/
theorem Hdl_BULK_READ_valid (hdr : EzusbHeader) (dev : LIBUSBDevice)
    (inBuffer : InBuffer) (inBufferLen : Nat) (outBuffer : List Nat) (outBufferLen : Nat)
    (hvalid : hdr.sizeof_BULK_TRANSFER_CONTROL ≤ inBufferLen) :
    Hdl_BULK_READ hdr (some dev) inBuffer inBufferLen outBuffer outBufferLen
      = { calls := [⟨Transfer.ReadBulkTransfer inBuffer.asBULK_TRANSFER_CONTROL.pipeNum
              (.outBuffer 0) outBufferLen,
            (dev.respond [] (Transfer.ReadBulkTransfer
              inBuffer.asBULK_TRANSFER_CONTROL.pipeNum (.outBuffer 0) outBufferLen)).ret⟩],
          completion := .returned (bulkReturn
            (dev.respond [] (Transfer.ReadBulkTransfer
              inBuffer.asBULK_TRANSFER_CONTROL.pipeNum (.outBuffer 0) outBufferLen)).ret),
          version := none } := by
  unfold Hdl_BULK_READ
  rw [if_neg (by omega)]

/-- The run of the bulk-write handler on a valid input. -/
theorem Hdl_BULK_WRITE_valid (hdr : EzusbHeader) (dev : LIBUSBDevice)
    (inBuffer : InBuffer) (inBufferLen : Nat) (outBuffer : List Nat) (outBufferLen : Nat)
    (hvalid : hdr.sizeof_BULK_TRANSFER_CONTROL ≤ inBufferLen) :
    Hdl_BULK_WRITE hdr (some dev) inBuffer inBufferLen outBuffer outBufferLen
      = { calls := [⟨Transfer.WriteBulkTransfer inBuffer.asBULK_TRANSFER_CONTROL.pipeNum
              (.outBuffer 0) outBufferLen,
            (dev.respond [] (Transfer.WriteBulkTransfer
              inBuffer.asBULK_TRANSFER_CONTROL.pipeNum (.outBuffer 0) outBufferLen)).ret⟩],
          completion := .returned (bulkReturn
            (dev.respond [] (Transfer.WriteBulkTransfer
              inBuffer.asBULK_TRANSFER_CONTROL.pipeNum (.outBuffer 0) outBufferLen)).ret),
          version := none } := by
  unfold Hdl_BULK_WRITE
  rw [if_neg (by omega)]

/-- The status mapping of the bulk handlers. -/
theorem bulkReturn_cases (err : Int) :
    (bulkReturn err = ⟨ERROR_SUCCESS, none⟩ ↔ err = LIBUSB_SUCCESS) ∧
    (err ≠ LIBUSB_SUCCESS → bulkReturn err = ⟨ERROR_GEN_FAILURE, none⟩) ∧
    (bulkReturn err).bytesReturned = none := by
  unfold bulkReturn
  by_cases h : err = LIBUSB_SUCCESS
  · simp [h]
  · simp [h, ERROR_GEN_FAILURE, ERROR_SUCCESS]

/-- C12: a valid bulk-read (bulk-write) request on an attached device issues
exactly one bulk read (bulk write) on the pipe number of the request, with
the output buffer and the length `outBufferLen`; the handler returns success
exactly when the status the primitive returns is `LIBUSB_SUCCESS` and
general-failure for every other status, never with a byte count; two devices
that return the same status give the same run, whatever transferred-bytes
values they store. -/
theorem bulk_transfer_result (hdr : EzusbHeader) (dev : LIBUSBDevice)
    (inBuffer : InBuffer) (inBufferLen : Nat) (outBuffer : List Nat) (outBufferLen : Nat)
    (hvalid : hdr.sizeof_BULK_TRANSFER_CONTROL ≤ inBufferLen) :
    ((Hdl_BULK_READ hdr (some dev) inBuffer inBufferLen outBuffer outBufferLen).calls.map
          Call.xfer
        = [Transfer.ReadBulkTransfer inBuffer.asBULK_TRANSFER_CONTROL.pipeNum
            (.outBuffer 0) outBufferLen] ∧
      ((Hdl_BULK_READ hdr (some dev) inBuffer inBufferLen outBuffer outBufferLen).completion
          = .returned ⟨ERROR_SUCCESS, none⟩ ↔
        (dev.respond [] (Transfer.ReadBulkTransfer inBuffer.asBULK_TRANSFER_CONTROL.pipeNum
          (.outBuffer 0) outBufferLen)).ret = LIBUSB_SUCCESS) ∧
      ((dev.respond [] (Transfer.ReadBulkTransfer inBuffer.asBULK_TRANSFER_CONTROL.pipeNum
          (.outBuffer 0) outBufferLen)).ret ≠ LIBUSB_SUCCESS →
        (Hdl_BULK_READ hdr (some dev) inBuffer inBufferLen outBuffer outBufferLen).completion
          = .returned ⟨ERROR_GEN_FAILURE, none⟩) ∧
      (∀ dev2 : LIBUSBDevice,
        (∀ hist x, (dev2.respond hist x).ret = (dev.respond hist x).ret) →
        Hdl_BULK_READ hdr (some dev2) inBuffer inBufferLen outBuffer outBufferLen
          = Hdl_BULK_READ hdr (some dev) inBuffer inBufferLen outBuffer outBufferLen)) ∧
    ((Hdl_BULK_WRITE hdr (some dev) inBuffer inBufferLen outBuffer outBufferLen).calls.map
          Call.xfer
        = [Transfer.WriteBulkTransfer inBuffer.asBULK_TRANSFER_CONTROL.pipeNum
            (.outBuffer 0) outBufferLen] ∧
      ((Hdl_BULK_WRITE hdr (some dev) inBuffer inBufferLen outBuffer outBufferLen).completion
          = .returned ⟨ERROR_SUCCESS, none⟩ ↔
        (dev.respond [] (Transfer.WriteBulkTransfer inBuffer.asBULK_TRANSFER_CONTROL.pipeNum
          (.outBuffer 0) outBufferLen)).ret = LIBUSB_SUCCESS) ∧
      ((dev.respond [] (Transfer.WriteBulkTransfer inBuffer.asBULK_TRANSFER_CONTROL.pipeNum
          (.outBuffer 0) outBufferLen)).ret ≠ LIBUSB_SUCCESS →
        (Hdl_BULK_WRITE hdr (some dev) inBuffer inBufferLen outBuffer outBufferLen).completion
          = .returned ⟨ERROR_GEN_FAILURE, none⟩) ∧
      (∀ dev2 : LIBUSBDevice,
        (∀ hist x, (dev2.respond hist x).ret = (dev.respond hist x).ret) →
        Hdl_BULK_WRITE hdr (some dev2) inBuffer inBufferLen outBuffer outBufferLen
          = Hdl_BULK_WRITE hdr (some dev) inBuffer inBufferLen outBuffer outBufferLen)) := by
  constructor
  · rw [Hdl_BULK_READ_valid hdr dev inBuffer inBufferLen outBuffer outBufferLen hvalid]
    refine ⟨rfl, ?_, ?_, ?_⟩
    · simp only [Completion.returned.injEq]
      exact (bulkReturn_cases _).1
    · intro herr
      simp only [Completion.returned.injEq]
      exact (bulkReturn_cases _).2.1 herr
    · intro dev2 hsame
      rw [Hdl_BULK_READ_valid hdr dev2 inBuffer inBufferLen outBuffer outBufferLen hvalid,
        hsame]
  · rw [Hdl_BULK_WRITE_valid hdr dev inBuffer inBufferLen outBuffer outBufferLen hvalid]
    refine ⟨rfl, ?_, ?_, ?_⟩
    · simp only [Completion.returned.injEq]
      exact (bulkReturn_cases _).1
    · intro herr
      simp only [Completion.returned.injEq]
      exact (bulkReturn_cases _).2.1 herr
    · intro dev2 hsame
      rw [Hdl_BULK_WRITE_valid hdr dev2 inBuffer inBufferLen outBuffer outBufferLen hvalid,
        hsame]

/-- C12 at concrete runs: a bulk read of 512 bytes on pipe 2 completed with
`LIBUSB_SUCCESS` succeeds, and one answered with −7 fails. -/
theorem bulk_transfer_result_witness :
    (Hdl_BULK_READ sampleHeader (some fullDevice)
        (sampleInBuffer ⟨1, 0, 0, 8, 1, 7⟩ ⟨0⟩ ⟨1, 2, 2, 9, 5, 6⟩) 4 [] 512).calls.map Call.xfer
      = [Transfer.ReadBulkTransfer 2 (.outBuffer 0) 512] ∧
    (Hdl_BULK_READ sampleHeader (some (constDevice (-7)))
        (sampleInBuffer ⟨1, 0, 0, 8, 1, 7⟩ ⟨0⟩ ⟨1, 2, 2, 9, 5, 6⟩) 4 [] 512).completion
      = .returned ⟨ERROR_GEN_FAILURE, none⟩ :=
  ⟨(bulk_transfer_result sampleHeader fullDevice
      (sampleInBuffer ⟨1, 0, 0, 8, 1, 7⟩ ⟨0⟩ ⟨1, 2, 2, 9, 5, 6⟩) 4 [] 512 (by decide)).1.1,
    (bulk_transfer_result sampleHeader (constDevice (-7))
      (sampleInBuffer ⟨1, 0, 0, 8, 1, 7⟩ ⟨0⟩ ⟨1, 2, 2, 9, 5, 6⟩) 4 [] 512 (by decide)).1.2.2.1
      (by decide)⟩

/-! ## The vendor-or-class request: direction and status -/

/-- The run of the vendor-or-class handler on a valid input. -/
theorem Hdl_VENDOR_OR_CLASS_REQUEST_run (hdr : EzusbHeader) (dev : LIBUSBDevice)
    (inBuffer : InBuffer) (inBufferLen : Nat) (outBuffer : List Nat) (outBufferLen : Nat)
    (hvalid : hdr.sizeof_VENDOR_OR_CLASS_REQUEST_CONTROL ≤ inBufferLen) :
    Hdl_VENDOR_OR_CLASS_REQUEST hdr (some dev) inBuffer inBufferLen outBuffer outBufferLen
      = { calls := [⟨vendorOrClassTransfer inBuffer.asVENDOR_OR_CLASS_REQUEST_CONTROL
              (decodeRequestType inBuffer.asVENDOR_OR_CLASS_REQUEST_CONTROL.requestType
                inBuffer.asVENDOR_OR_CLASS_REQUEST_CONTROL.recepient) outBufferLen,
            (dev.respond [] (vendorOrClassTransfer
              inBuffer.asVENDOR_OR_CLASS_REQUEST_CONTROL
              (decodeRequestType inBuffer.asVENDOR_OR_CLASS_REQUEST_CONTROL.requestType
                inBuffer.asVENDOR_OR_CLASS_REQUEST_CONTROL.recepient) outBufferLen)).ret⟩],
          completion := .returned (vendorOrClassReturn
            (dev.respond [] (vendorOrClassTransfer
              inBuffer.asVENDOR_OR_CLASS_REQUEST_CONTROL
              (decodeRequestType inBuffer.asVENDOR_OR_CLASS_REQUEST_CONTROL.requestType
                inBuffer.asVENDOR_OR_CLASS_REQUEST_CONTROL.recepient) outBufferLen)).ret),
          version := none } := by
  unfold Hdl_VENDOR_OR_CLASS_REQUEST
  rw [if_neg (by omega)]
  rfl

/-- C13: a valid vendor-or-class request on an attached device issues
exactly one control transfer, a control-read if the direction field is not
zero and a control-write if it is zero, with the request code, value and index
of the request and the output buffer as payload; the handler returns success
exactly when the primitive returns a non-negative value, general-failure when
it returns a negative one, and never a byte count. -/
theorem vendor_or_class_result (hdr : EzusbHeader) (dev : LIBUSBDevice)
    (inBuffer : InBuffer) (inBufferLen : Nat) (outBuffer : List Nat) (outBufferLen : Nat)
    (hvalid : hdr.sizeof_VENDOR_OR_CLASS_REQUEST_CONTROL ≤ inBufferLen) :
    (inBuffer.asVENDOR_OR_CLASS_REQUEST_CONTROL.direction ≠ 0 →
      (Hdl_VENDOR_OR_CLASS_REQUEST hdr (some dev) inBuffer inBufferLen outBuffer
          outBufferLen).calls.map Call.xfer
        = [Transfer.ReadControlTransfer
            (decodeRequestType inBuffer.asVENDOR_OR_CLASS_REQUEST_CONTROL.requestType
              inBuffer.asVENDOR_OR_CLASS_REQUEST_CONTROL.recepient)
            inBuffer.asVENDOR_OR_CLASS_REQUEST_CONTROL.request
            inBuffer.asVENDOR_OR_CLASS_REQUEST_CONTROL.value
            inBuffer.asVENDOR_OR_CLASS_REQUEST_CONTROL.index
            (.outBuffer 0) (toUInt16 outBufferLen)]) ∧
    (inBuffer.asVENDOR_OR_CLASS_REQUEST_CONTROL.direction = 0 →
      (Hdl_VENDOR_OR_CLASS_REQUEST hdr (some dev) inBuffer inBufferLen outBuffer
          outBufferLen).calls.map Call.xfer
        = [Transfer.WriteControlTransfer
            (decodeRequestType inBuffer.asVENDOR_OR_CLASS_REQUEST_CONTROL.requestType
              inBuffer.asVENDOR_OR_CLASS_REQUEST_CONTROL.recepient)
            inBuffer.asVENDOR_OR_CLASS_REQUEST_CONTROL.request
            inBuffer.asVENDOR_OR_CLASS_REQUEST_CONTROL.value
            inBuffer.asVENDOR_OR_CLASS_REQUEST_CONTROL.index
            (.outBuffer 0) (toUInt16 outBufferLen)]) ∧
    (∀ c ∈ (Hdl_VENDOR_OR_CLASS_REQUEST hdr (some dev) inBuffer inBufferLen outBuffer
          outBufferLen).calls,
      ((Hdl_VENDOR_OR_CLASS_REQUEST hdr (some dev) inBuffer inBufferLen outBuffer
          outBufferLen).completion = .returned ⟨ERROR_SUCCESS, none⟩ ↔ 0 ≤ c.ret) ∧
      (c.ret < 0 →
        (Hdl_VENDOR_OR_CLASS_REQUEST hdr (some dev) inBuffer inBufferLen outBuffer
          outBufferLen).completion = .returned ⟨ERROR_GEN_FAILURE, none⟩)) ∧
    (Hdl_VENDOR_OR_CLASS_REQUEST hdr (some dev) inBuffer inBufferLen outBuffer
        outBufferLen).calls.length = 1 := by
  rw [Hdl_VENDOR_OR_CLASS_REQUEST_run hdr dev inBuffer inBufferLen outBuffer outBufferLen hvalid]
  refine ⟨?_, ?_, ?_, rfl⟩
  · intro hdir
    simp [vendorOrClassTransfer, hdir]
  · intro hdir
    simp [vendorOrClassTransfer, hdir]
  · intro c hc
    have hceq := List.mem_singleton.mp hc
    subst hceq
    simp only [Completion.returned.injEq, vendorOrClassReturn]
    constructor
    · constructor
      · intro h
        by_contra hneg
        rw [if_neg hneg] at h
        revert h
        simp [ERROR_GEN_FAILURE, ERROR_SUCCESS]
      · intro h
        rw [if_pos h]
    · intro h
      rw [if_neg (by omega)]

/-- C13 at concrete runs: a read request (direction 1) answered with 0
succeeds after one control-read; a write request answered with −1 fails. -/
theorem vendor_or_class_result_witness :
    (Hdl_VENDOR_OR_CLASS_REQUEST sampleHeader (some (constDevice 0))
        (sampleInBuffer ⟨1, 0, 0, 8, 1, 7⟩ ⟨0⟩ ⟨1, 2, 2, 9, 5, 6⟩) 10 [] 8).calls.map Call.xfer
      = [Transfer.ReadControlTransfer (decodeRequestType 2 2) 9 5 6 (.outBuffer 0)
          (toUInt16 8)] ∧
    (Hdl_VENDOR_OR_CLASS_REQUEST sampleHeader (some (constDevice (-1)))
        (sampleInBuffer ⟨1, 0, 0, 8, 1, 7⟩ ⟨0⟩ ⟨0, 2, 2, 9, 5, 6⟩) 10 [] 8).completion
      = .returned ⟨ERROR_GEN_FAILURE, none⟩ :=
  ⟨(vendor_or_class_result sampleHeader (constDevice 0)
      (sampleInBuffer ⟨1, 0, 0, 8, 1, 7⟩ ⟨0⟩ ⟨1, 2, 2, 9, 5, 6⟩) 10 [] 8 (by decide)).1
      (by decide),
    ((vendor_or_class_result sampleHeader (constDevice (-1))
      (sampleInBuffer ⟨1, 0, 0, 8, 1, 7⟩ ⟨0⟩ ⟨0, 2, 2, 9, 5, 6⟩) 10 [] 8 (by decide)).2.2.1
      ⟨Transfer.WriteControlTransfer (decodeRequestType 2 2) 9 5 6 (.outBuffer 0) (toUInt16 8),
        -1⟩ (by decide)).2 (by decide)⟩

/-! ## The dispatchers -/

/-- C14: in the first dispatcher, one dispatch of reset-pipe or abort-pipe,
with any device state, buffers, lengths and bytes-returned location, invokes
a handler that issues no transfer and stores nothing, returns success with no
byte count and leaves the bytes-returned value as it was; and `n` such
dispatches in a row all do the same, for every `n`. -/
theorem reset_abort_pipe_noop (hdr : EzusbHeader) (GUSBDev : Option LIBUSBDevice)
    (inBuffer : InBuffer) (inBufferLen : Nat) (outBuffer : List Nat) (outBufferLen : Nat)
    (lpBytesReturned : Option Nat) (n : Nat) :
    TranslateIOTCL hdr GUSBDev IOCTL.Ezusb_RESETPIPE inBuffer inBufferLen outBuffer
        outBufferLen lpBytesReturned
      = { handler := some
            { calls := [], completion := .returned ⟨ERROR_SUCCESS, none⟩, version := none },
          status := some ERROR_SUCCESS, bytesReturned := lpBytesReturned } ∧
    TranslateIOTCL hdr GUSBDev IOCTL.Ezusb_ABORTPIPE inBuffer inBufferLen outBuffer
        outBufferLen lpBytesReturned
      = { handler := some
            { calls := [], completion := .returned ⟨ERROR_SUCCESS, none⟩, version := none },
          status := some ERROR_SUCCESS, bytesReturned := lpBytesReturned } ∧
    dispatchTimes hdr GUSBDev IOCTL.Ezusb_RESETPIPE inBuffer inBufferLen outBuffer
        outBufferLen n lpBytesReturned
      = List.replicate n
          { handler := some
              { calls := [], completion := .returned ⟨ERROR_SUCCESS, none⟩, version := none },
            status := some ERROR_SUCCESS, bytesReturned := lpBytesReturned } ∧
    dispatchTimes hdr GUSBDev IOCTL.Ezusb_ABORTPIPE inBuffer inBufferLen outBuffer
        outBufferLen n lpBytesReturned
      = List.replicate n
          { handler := some
              { calls := [], completion := .returned ⟨ERROR_SUCCESS, none⟩, version := none },
            status := some ERROR_SUCCESS, bytesReturned := lpBytesReturned } := by
  have hreset : ∀ lp : Option Nat,
      TranslateIOTCL hdr GUSBDev IOCTL.Ezusb_RESETPIPE inBuffer inBufferLen outBuffer
          outBufferLen lp
        = { handler := some
              { calls := [], completion := .returned ⟨ERROR_SUCCESS, none⟩, version := none },
            status := some ERROR_SUCCESS, bytesReturned := lp } := by
    intro lp
    cases lp <;> rfl
  have habort : ∀ lp : Option Nat,
      TranslateIOTCL hdr GUSBDev IOCTL.Ezusb_ABORTPIPE inBuffer inBufferLen outBuffer
          outBufferLen lp
        = { handler := some
              { calls := [], completion := .returned ⟨ERROR_SUCCESS, none⟩, version := none },
            status := some ERROR_SUCCESS, bytesReturned := lp } := by
    intro lp
    cases lp <;> rfl
  refine ⟨hreset _, habort _, ?_, ?_⟩
  · induction n with
    | zero => rfl
    | succ k ih =>
      rw [dispatchTimes, hreset, List.replicate_succ]
      simp only [List.cons.injEq, true_and]
      exact ih
  · induction n with
    | zero => rfl
    | succ k ih =>
      rw [dispatchTimes, habort, List.replicate_succ]
      simp only [List.cons.injEq, true_and]
      exact ih

/-- What the dispatchers do with the run of the handler they invoked. -/
theorem dispatch_writeback (run : HandlerRun) (r : ioctl_handler_return_t)
    (lpBytesReturned : Option Nat) (d : DispatchRun)
    (hd : d = (match lpBytesReturned, r.bytesReturned with
      | some _, some n =>
        ({ handler := some run, status := some r.error, bytesReturned := some n } : DispatchRun)
      | _, _ => { handler := some run, status := some r.error, bytesReturned := lpBytesReturned })) :
    d.handler = some run ∧ d.status = some r.error ∧
    (∀ before count, lpBytesReturned = some before → r.bytesReturned = some count →
      d.bytesReturned = some count) ∧
    (r.bytesReturned = none → d.bytesReturned = lpBytesReturned) ∧
    (lpBytesReturned = none → d.bytesReturned = none) := by
  subst hd
  cases lpBytesReturned <;> cases hb : r.bytesReturned <;> simp

/-- C15: in both dispatchers, for an opcode the registry maps to a handler,
the dispatch invokes that handler on the four buffer and length arguments as
given; when the handler returns, the dispatch returns the handler's status,
stores the handler's byte count in the bytes-returned location if the result
carries one and the location is not null, and leaves the location as it was
otherwise; when the handler throws, no status is returned and the location is
left as it was. -/
theorem dispatch_known_opcode (H : IOCTLHandlers) (hdr : EzusbHeader)
    (GUSBDev : Option LIBUSBDevice) (dwIOCTL : IOCTL) (inBuffer : InBuffer)
    (inBufferLen : Nat) (outBuffer : List Nat) (outBufferLen : Nat)
    (lpBytesReturned : Option Nat) :
    (∀ hdl : ioctl_handler_t, ioctl_handler_map dwIOCTL = some hdl →
      (TranslateIOTCL hdr GUSBDev dwIOCTL inBuffer inBufferLen outBuffer outBufferLen
          lpBytesReturned).handler
        = some (hdl hdr GUSBDev inBuffer inBufferLen outBuffer outBufferLen) ∧
      (∀ r, (hdl hdr GUSBDev inBuffer inBufferLen outBuffer outBufferLen).completion
          = .returned r →
        (TranslateIOTCL hdr GUSBDev dwIOCTL inBuffer inBufferLen outBuffer outBufferLen
            lpBytesReturned).status = some r.error ∧
        (∀ before count, lpBytesReturned = some before → r.bytesReturned = some count →
          (TranslateIOTCL hdr GUSBDev dwIOCTL inBuffer inBufferLen outBuffer outBufferLen
            lpBytesReturned).bytesReturned = some count) ∧
        (r.bytesReturned = none →
          (TranslateIOTCL hdr GUSBDev dwIOCTL inBuffer inBufferLen outBuffer outBufferLen
            lpBytesReturned).bytesReturned = lpBytesReturned) ∧
        (lpBytesReturned = none →
          (TranslateIOTCL hdr GUSBDev dwIOCTL inBuffer inBufferLen outBuffer outBufferLen
            lpBytesReturned).bytesReturned = none)) ∧
      ((hdl hdr GUSBDev inBuffer inBufferLen outBuffer outBufferLen).completion
          = .bad_optional_access →
        (TranslateIOTCL hdr GUSBDev dwIOCTL inBuffer inBufferLen outBuffer outBufferLen
            lpBytesReturned).status = none ∧
        (TranslateIOTCL hdr GUSBDev dwIOCTL inBuffer inBufferLen outBuffer outBufferLen
            lpBytesReturned).bytesReturned = lpBytesReturned)) ∧
    (∀ hdl : ioctl_handler_t, TranslationLayer.ioctl_handler_map H dwIOCTL = some hdl →
      (TranslationLayer.TranslateIOTCL H hdr GUSBDev dwIOCTL inBuffer inBufferLen outBuffer
          outBufferLen lpBytesReturned).handler
        = some (hdl hdr GUSBDev inBuffer inBufferLen outBuffer outBufferLen) ∧
      (∀ r, (hdl hdr GUSBDev inBuffer inBufferLen outBuffer outBufferLen).completion
          = .returned r →
        (TranslationLayer.TranslateIOTCL H hdr GUSBDev dwIOCTL inBuffer inBufferLen outBuffer
            outBufferLen lpBytesReturned).status = some r.error ∧
        (∀ before count, lpBytesReturned = some before → r.bytesReturned = some count →
          (TranslationLayer.TranslateIOTCL H hdr GUSBDev dwIOCTL inBuffer inBufferLen outBuffer
            outBufferLen lpBytesReturned).bytesReturned = some count) ∧
        (r.bytesReturned = none →
          (TranslationLayer.TranslateIOTCL H hdr GUSBDev dwIOCTL inBuffer inBufferLen outBuffer
            outBufferLen lpBytesReturned).bytesReturned = lpBytesReturned) ∧
        (lpBytesReturned = none →
          (TranslationLayer.TranslateIOTCL H hdr GUSBDev dwIOCTL inBuffer inBufferLen outBuffer
            outBufferLen lpBytesReturned).bytesReturned = none)) ∧
      ((hdl hdr GUSBDev inBuffer inBufferLen outBuffer outBufferLen).completion
          = .bad_optional_access →
        (TranslationLayer.TranslateIOTCL H hdr GUSBDev dwIOCTL inBuffer inBufferLen outBuffer
            outBufferLen lpBytesReturned).status = none ∧
        (TranslationLayer.TranslateIOTCL H hdr GUSBDev dwIOCTL inBuffer inBufferLen outBuffer
            outBufferLen lpBytesReturned).bytesReturned = lpBytesReturned)) := by
  constructor
  · intro hdl hmap
    cases hc : (hdl hdr GUSBDev inBuffer inBufferLen outBuffer outBufferLen).completion with
    | bad_optional_access =>
      simp only [TranslateIOTCL, hmap, hc]
      simp
    | returned r0 =>
      have hw := dispatch_writeback
        (hdl hdr GUSBDev inBuffer inBufferLen outBuffer outBufferLen) r0 lpBytesReturned
        (TranslateIOTCL hdr GUSBDev dwIOCTL inBuffer inBufferLen outBuffer outBufferLen
          lpBytesReturned) (by simp only [TranslateIOTCL, hmap, hc])
      refine ⟨hw.1, ?_, ?_⟩
      · intro r hr
        have hrr : r0 = r := by simpa using hr
        subst hrr
        exact hw.2
      · intro h
        simp at h
  · intro hdl hmap
    cases hc : (hdl hdr GUSBDev inBuffer inBufferLen outBuffer outBufferLen).completion with
    | bad_optional_access =>
      simp only [TranslationLayer.TranslateIOTCL, hmap, hc]
      simp
    | returned r0 =>
      have hw := dispatch_writeback
        (hdl hdr GUSBDev inBuffer inBufferLen outBuffer outBufferLen) r0 lpBytesReturned
        (TranslationLayer.TranslateIOTCL H hdr GUSBDev dwIOCTL inBuffer inBufferLen outBuffer
          outBufferLen lpBytesReturned)
        (by simp only [TranslationLayer.TranslateIOTCL, hmap, hc])
      refine ⟨hw.1, ?_, ?_⟩
      · intro r hr
        have hrr : r0 = r := by simpa using hr
        subst hrr
        exact hw.2
      · intro h
        simp at h

/-- C15 at a concrete dispatch: the driver-version query through the first
dispatcher stores the byte count 6 over the previous value 99. -/
theorem dispatch_known_opcode_witness :
    (TranslateIOTCL sampleHeader none IOCTL.EZUSB_GET_DRIVER_VERSION
        (sampleInBuffer ⟨1, 0, 0, 8, 1, 7⟩ ⟨0⟩ ⟨1, 2, 2, 9, 5, 6⟩) 0 [] 6 (some 99)).status
      = some ERROR_SUCCESS ∧
    (TranslateIOTCL sampleHeader none IOCTL.EZUSB_GET_DRIVER_VERSION
        (sampleInBuffer ⟨1, 0, 0, 8, 1, 7⟩ ⟨0⟩ ⟨1, 2, 2, 9, 5, 6⟩) 0 [] 6
        (some 99)).bytesReturned
      = some 6 :=
  ⟨(((dispatch_known_opcode sampleHandlers sampleHeader none IOCTL.EZUSB_GET_DRIVER_VERSION
      (sampleInBuffer ⟨1, 0, 0, 8, 1, 7⟩ ⟨0⟩ ⟨1, 2, 2, 9, 5, 6⟩) 0 [] 6 (some 99)).1
      Hdl_GET_DRIVER_VERSION rfl).2.1 ⟨ERROR_SUCCESS, some 6⟩ (by decide)).1,
    (((dispatch_known_opcode sampleHandlers sampleHeader none IOCTL.EZUSB_GET_DRIVER_VERSION
      (sampleInBuffer ⟨1, 0, 0, 8, 1, 7⟩ ⟨0⟩ ⟨1, 2, 2, 9, 5, 6⟩) 0 [] 6 (some 99)).1
      Hdl_GET_DRIVER_VERSION rfl).2.1 ⟨ERROR_SUCCESS, some 6⟩ (by decide)).2.1 99 6 rfl rfl⟩

/-- C16: for an opcode that a registry does not map to a handler, the
first dispatcher returns success and the second dispatcher returns
invalid-parameter; in both, no handler is invoked (so no transfer is issued)
and the bytes-returned value is left as it was. -/
theorem dispatch_unknown_opcode (H : IOCTLHandlers) (hdr : EzusbHeader)
    (GUSBDev : Option LIBUSBDevice) (dwIOCTL : IOCTL) (inBuffer : InBuffer)
    (inBufferLen : Nat) (outBuffer : List Nat) (outBufferLen : Nat)
    (lpBytesReturned : Option Nat) :
    (ioctl_handler_map dwIOCTL = none →
      TranslateIOTCL hdr GUSBDev dwIOCTL inBuffer inBufferLen outBuffer outBufferLen
          lpBytesReturned
        = { handler := none, status := some ERROR_SUCCESS,
            bytesReturned := lpBytesReturned }) ∧
    (TranslationLayer.ioctl_handler_map H dwIOCTL = none →
      TranslationLayer.TranslateIOTCL H hdr GUSBDev dwIOCTL inBuffer inBufferLen outBuffer
          outBufferLen lpBytesReturned
        = { handler := none, status := some ERROR_INVALID_PARAMETER,
            bytesReturned := lpBytesReturned }) ∧
    (ioctl_handler_map dwIOCTL = none ↔
      dwIOCTL = IOCTL.Ezusb_GET_CURRENT_CONFIG ∨ ∃ code, dwIOCTL = IOCTL.other code) ∧
    (TranslationLayer.ioctl_handler_map H dwIOCTL = none ↔
      dwIOCTL = IOCTL.Ezusb_RESETPIPE ∨ dwIOCTL = IOCTL.Ezusb_ABORTPIPE ∨
        ∃ code, dwIOCTL = IOCTL.other code) := by
  refine ⟨?_, ?_, ?_, ?_⟩
  · intro hmap
    simp only [TranslateIOTCL, hmap]
  · intro hmap
    simp only [TranslationLayer.TranslateIOTCL, hmap]
  · cases dwIOCTL <;> simp [ioctl_handler_map]
  · cases dwIOCTL <;> simp [TranslationLayer.ioctl_handler_map]

/-- C16 at a concrete opcode: a request code outside both registries. -/
theorem dispatch_unknown_opcode_witness :
    TranslateIOTCL sampleHeader (some fullDevice) (IOCTL.other 0x222000)
        (sampleInBuffer ⟨1, 0, 0, 8, 1, 7⟩ ⟨0⟩ ⟨1, 2, 2, 9, 5, 6⟩) 10 [] 8 (some 99)
      = { handler := none, status := some ERROR_SUCCESS, bytesReturned := some 99 } ∧
    TranslationLayer.TranslateIOTCL sampleHandlers sampleHeader (some fullDevice)
        (IOCTL.other 0x222000)
        (sampleInBuffer ⟨1, 0, 0, 8, 1, 7⟩ ⟨0⟩ ⟨1, 2, 2, 9, 5, 6⟩) 10 [] 8 (some 99)
      = { handler := none, status := some ERROR_INVALID_PARAMETER,
          bytesReturned := some 99 } :=
  ⟨(dispatch_unknown_opcode sampleHandlers sampleHeader (some fullDevice)
      (IOCTL.other 0x222000)
      (sampleInBuffer ⟨1, 0, 0, 8, 1, 7⟩ ⟨0⟩ ⟨1, 2, 2, 9, 5, 6⟩) 10 [] 8 (some 99)).1 rfl,
    (dispatch_unknown_opcode sampleHandlers sampleHeader (some fullDevice)
      (IOCTL.other 0x222000)
      (sampleInBuffer ⟨1, 0, 0, 8, 1, 7⟩ ⟨0⟩ ⟨1, 2, 2, 9, 5, 6⟩) 10 [] 8 (some 99)).2.1 rfl⟩

/-- C19 (failing input): the registry of the second dispatcher has no entry
for reset-pipe and none for abort-pipe, so dispatching either through it
returns invalid-parameter without invoking a handler, whatever the registered
handlers, the device, the buffers and the lengths are. -/
theorem second_dispatcher_rejects_reset_abort (H : IOCTLHandlers) (hdr : EzusbHeader)
    (GUSBDev : Option LIBUSBDevice) (inBuffer : InBuffer) (inBufferLen : Nat)
    (outBuffer : List Nat) (outBufferLen : Nat) (lpBytesReturned : Option Nat) :
    TranslationLayer.TranslateIOTCL H hdr GUSBDev IOCTL.Ezusb_RESETPIPE inBuffer inBufferLen
        outBuffer outBufferLen lpBytesReturned
      = { handler := none, status := some ERROR_INVALID_PARAMETER,
          bytesReturned := lpBytesReturned } ∧
    TranslationLayer.TranslateIOTCL H hdr GUSBDev IOCTL.Ezusb_ABORTPIPE inBuffer inBufferLen
        outBuffer outBufferLen lpBytesReturned
      = { handler := none, status := some ERROR_INVALID_PARAMETER,
          bytesReturned := lpBytesReturned } ∧
    ERROR_INVALID_PARAMETER ≠ ERROR_SUCCESS :=
  ⟨rfl, rfl, by decide⟩

/-- A handler of the first registry that returns a status other than success
returns no byte count. -/
theorem failure_has_no_byte_count (hdr : EzusbHeader) (GUSBDev : Option LIBUSBDevice)
    (dwIOCTL : IOCTL) (inBuffer : InBuffer) (inBufferLen : Nat) (outBuffer : List Nat)
    (outBufferLen : Nat) (hdl : ioctl_handler_t) (r : ioctl_handler_return_t)
    (hmap : ioctl_handler_map dwIOCTL = some hdl)
    (hret : (hdl hdr GUSBDev inBuffer inBufferLen outBuffer outBufferLen).completion
      = .returned r)
    (hfail : r.error ≠ ERROR_SUCCESS) :
    r.bytesReturned = none := by
  cases hcount : r.bytesReturned with
  | none => rfl
  | some count =>
    exfalso
    have hrun : (TranslateIOTCL hdr GUSBDev dwIOCTL inBuffer inBufferLen outBuffer
        outBufferLen none).handler
          = some (hdl hdr GUSBDev inBuffer inBufferLen outBuffer outBufferLen) := by
      simp only [TranslateIOTCL, hmap, hret]
    rcases dispatch_byte_count_opcodes hdr GUSBDev dwIOCTL inBuffer inBufferLen outBuffer
      outBufferLen none _ r count hrun hret hcount with hop | hop
    · subst hop
      have hh : hdl = Hdl_VENDOR_REQUEST := by
        simpa [ioctl_handler_map] using hmap.symm
      subst hh
      unfold Hdl_VENDOR_REQUEST at hret
      split at hret
      · simp only [returnOnly, Completion.returned.injEq] at hret
        rw [← hret] at hcount
        simp at hcount
      · have hvr : ∀ status : Int, (vendorReturn status).error = ERROR_SUCCESS := by
          intro status
          unfold vendorReturn
          split <;> rfl
        cases GUSBDev with
        | none =>
          simp only [] at hret
          split at hret <;> simp at hret
        | some dev =>
          simp only [] at hret
          split at hret
          · simp only [Completion.returned.injEq] at hret
            rw [← hret] at hfail
            exact hfail (hvr _)
          · simp only [Completion.returned.injEq] at hret
            rw [← hret] at hfail
            exact hfail (hvr _)
    · subst hop
      have hh : hdl = Hdl_GET_DRIVER_VERSION := by
        simpa [ioctl_handler_map] using hmap.symm
      subst hh
      unfold Hdl_GET_DRIVER_VERSION at hret
      split at hret
      · simp only [returnOnly, Completion.returned.injEq] at hret
        rw [← hret] at hcount
        simp at hcount
      · simp only [Completion.returned.injEq] at hret
        rw [← hret] at hfail
        exact hfail rfl

/-- C20: in the first dispatcher, for every opcode, input, device and
bytes-returned location, a dispatch that returns a status other than success
invoked a handler whose result carries no byte count, and the bytes-returned
value is left as it was. -/
theorem dispatch_failure_keeps_bytes_returned (hdr : EzusbHeader)
    (GUSBDev : Option LIBUSBDevice) (dwIOCTL : IOCTL) (inBuffer : InBuffer)
    (inBufferLen : Nat) (outBuffer : List Nat) (outBufferLen : Nat)
    (lpBytesReturned : Option Nat) (status : Nat)
    (hstatus : (TranslateIOTCL hdr GUSBDev dwIOCTL inBuffer inBufferLen outBuffer outBufferLen
      lpBytesReturned).status = some status)
    (hfail : status ≠ ERROR_SUCCESS) :
    (∃ run, (TranslateIOTCL hdr GUSBDev dwIOCTL inBuffer inBufferLen outBuffer outBufferLen
        lpBytesReturned).handler = some run ∧
      run.completion = .returned ⟨status, none⟩) ∧
    (TranslateIOTCL hdr GUSBDev dwIOCTL inBuffer inBufferLen outBuffer outBufferLen
      lpBytesReturned).bytesReturned = lpBytesReturned := by
  cases hmap : ioctl_handler_map dwIOCTL with
  | none =>
    simp only [TranslateIOTCL, hmap, Option.some.injEq] at hstatus
    exact absurd hstatus.symm hfail
  | some hdl =>
    cases hc : (hdl hdr GUSBDev inBuffer inBufferLen outBuffer outBufferLen).completion with
    | bad_optional_access =>
      simp only [TranslateIOTCL, hmap, hc] at hstatus
      simp at hstatus
    | returned r =>
      have hw := dispatch_writeback
        (hdl hdr GUSBDev inBuffer inBufferLen outBuffer outBufferLen) r lpBytesReturned
        (TranslateIOTCL hdr GUSBDev dwIOCTL inBuffer inBufferLen outBuffer outBufferLen
          lpBytesReturned) (by simp only [TranslateIOTCL, hmap, hc])
      have herr : r.error = status := by
        have h := hw.2.1
        rw [hstatus] at h
        simpa using h.symm
      have hnone := failure_has_no_byte_count hdr GUSBDev dwIOCTL inBuffer inBufferLen
        outBuffer outBufferLen hdl r hmap hc (by rw [herr]; exact hfail)
      refine ⟨⟨_, hw.1, ?_⟩, hw.2.2.2.1 hnone⟩
      rw [hc]
      cases r with
      | mk e b =>
        simp only at herr hnone
        rw [herr, hnone]

/-- C20 at a concrete dispatch: a driver-version query with a 5-byte output
buffer fails with general-failure and the bytes-returned value stays 99. -/
theorem dispatch_failure_keeps_bytes_returned_witness :
    (TranslateIOTCL sampleHeader none IOCTL.EZUSB_GET_DRIVER_VERSION
        (sampleInBuffer ⟨1, 0, 0, 8, 1, 7⟩ ⟨0⟩ ⟨1, 2, 2, 9, 5, 6⟩) 0 [] 5
        (some 99)).bytesReturned
      = some 99 :=
  (dispatch_failure_keeps_bytes_returned sampleHeader none IOCTL.EZUSB_GET_DRIVER_VERSION
    (sampleInBuffer ⟨1, 0, 0, 8, 1, 7⟩ ⟨0⟩ ⟨1, 2, 2, 9, 5, 6⟩) 0 [] 5 (some 99)
    ERROR_GEN_FAILURE (by decide) (by decide)).2

/-! ## The anchor download: request fields of a chunk -/

/-- The calls of the loop entered at `i` are always those of chunks
`0, …, m-1` for some `m` between `i` and the chunk count. -/
theorem anchorLoop_calls_initial (dev : LIBUSBDevice) (hdr : EzusbHeader)
    (req : ANCHOR_DOWNLOAD_CONTROL) (P n : Nat) :
    ∀ (k i : Nat), ∃ m, i ≤ m ∧ m ≤ i + k ∧
      (anchorLoop hdr (some dev) req P n k i (anchorCalls dev hdr req P n i)).calls
        = anchorCalls dev hdr req P n m := by
  intro k
  induction k with
  | zero => intro i; exact ⟨i, Nat.le_refl i, by omega, rfl⟩
  | succ k ih =>
    intro i
    simp only [anchorLoop, anchorCalls_xfer]
    split
    · refine ⟨i + 1, by omega, by omega, ?_⟩
      rw [anchorCalls_succ]
      rfl
    · obtain ⟨m, h1, h2, h3⟩ := ih (i + 1)
      refine ⟨m, by omega, by omega, ?_⟩
      rw [anchorCalls_succ] at h3
      exact h3

/-- The call at position `i` of a list of chunk calls is the call of chunk
`i`. -/
theorem anchorCalls_getElem (dev : LIBUSBDevice) (hdr : EzusbHeader)
    (req : ANCHOR_DOWNLOAD_CONTROL) (P n m i : Nat) (c : Call)
    (h : (anchorCalls dev hdr req P n m)[i]? = some c) :
    i < m ∧ c.xfer = chunkTransfer hdr req P n i := by
  unfold anchorCalls at h
  rw [List.getElem?_map] at h
  by_cases him : i < m
  · rw [List.getElem?_range him] at h
    simp only [Option.map_some', Option.some.injEq] at h
    exact ⟨him, by rw [← h]⟩
  · rw [List.getElem?_eq_none (by simpa using him)] at h
    simp at h

/-- C17 (counterexample): with base offset 0xFFC0 and a payload of 128
bytes, the control-write of chunk 1 carries the value 0, while
base + 64·1 is 65536. -/
theorem anchor_value_wraps_at_65536 :
    (Hdl_ANCHOR_DOWNLOAD sampleHeader (some fullDevice)
        (sampleInBuffer ⟨1, 0, 0, 8, 1, 7⟩ ⟨0xFFC0⟩ ⟨1, 2, 2, 9, 5, 6⟩) 2 [] 128).calls.map
        Call.xfer
      = [Transfer.WriteControlTransfer 0x40 0xA0 0xFFC0 0 (.outBuffer 0) 64,
         Transfer.WriteControlTransfer 0x40 0xA0 0 0 (.outBuffer 64) 64] ∧
    (0xFFC0 : Nat) < 65536 ∧ 0xFFC0 + 64 * 1 = 65536 := by
  decide

/-- C17 (amended): for a valid anchor-download request on an attached
device, the call issued at position `i` is a control-write with type vendor
and recipient device, the internal-load request code, index 0 and the value
`(base + 64·i) mod 65536`, which is `base + 64·i` whenever that sum is below
65536; when every chunk is transferred in full there is one such call for
every chunk index below the chunk count. -/
theorem anchor_chunk_request (hdr : EzusbHeader) (dev : LIBUSBDevice)
    (inBuffer : InBuffer) (inBufferLen : Nat) (outBuffer : List Nat) (P : Nat)
    (hvalid : hdr.sizeof_ANCHOR_DOWNLOAD_CONTROL ≤ inBufferLen) :
    (∀ (i : Nat) (c : Call),
      (Hdl_ANCHOR_DOWNLOAD hdr (some dev) inBuffer inBufferLen outBuffer P).calls[i]? = some c →
      i < chunkCount P ∧
      c.xfer = Transfer.WriteControlTransfer
        (LIBUSB_REQUEST_TYPE_VENDOR ||| LIBUSB_RECIPIENT_DEVICE) hdr.ANCHOR_LOAD_INTERNAL
        ((inBuffer.asANCHOR_DOWNLOAD_CONTROL.Offset + 64 * i) % 65536) 0
        (.outBuffer (toInt32 ((i : Int) * 64))) (chunkLength P (chunkCount P) i) ∧
      (inBuffer.asANCHOR_DOWNLOAD_CONTROL.Offset + 64 * i < 65536 →
        (inBuffer.asANCHOR_DOWNLOAD_CONTROL.Offset + 64 * i) % 65536
          = inBuffer.asANCHOR_DOWNLOAD_CONTROL.Offset + 64 * i)) ∧
    ((∀ j, j < chunkCount P →
        anchorResponse dev hdr inBuffer.asANCHOR_DOWNLOAD_CONTROL P (chunkCount P) j
          = (chunkLength P (chunkCount P) j : Int)) →
      (Hdl_ANCHOR_DOWNLOAD hdr (some dev) inBuffer inBufferLen outBuffer P).calls.length
        = chunkCount P) := by
  rw [Hdl_ANCHOR_DOWNLOAD_valid hdr dev inBuffer inBufferLen outBuffer P hvalid]
  constructor
  · intro i c hc
    obtain ⟨m, _, hm, hcalls⟩ := anchorLoop_calls_initial dev hdr
      inBuffer.asANCHOR_DOWNLOAD_CONTROL P (chunkCount P) (chunkCount P) 0
    rw [hcalls] at hc
    obtain ⟨him, hx⟩ := anchorCalls_getElem dev hdr _ P _ m i c hc
    refine ⟨by omega, ?_, fun h => Nat.mod_eq_of_lt h⟩
    rw [hx]
    simp only [chunkTransfer, chunkValue, toUInt16, ANCHOR_DOWNLOAD_CHUNK_SIZE]
    have hsum : i * 64 + inBuffer.asANCHOR_DOWNLOAD_CONTROL.Offset
        = inBuffer.asANCHOR_DOWNLOAD_CONTROL.Offset + 64 * i := by omega
    rw [hsum]
    rfl
  · intro hall
    rw [anchorLoop_all_full dev hdr inBuffer.asANCHOR_DOWNLOAD_CONTROL P (chunkCount P)
      (chunkCount P) 0 (fun j _ h2 => hall j (by omega))]
    simp [anchorCalls_length]

/-- C17 (amended) at a concrete run: base 0x1000, 130 bytes, chunk 2. -/
theorem anchor_chunk_request_witness :
    2 < chunkCount 130 ∧
    (⟨Transfer.WriteControlTransfer 0x40 0xA0 0x1080 0 (.outBuffer 128) 2, 2⟩ : Call).xfer
      = Transfer.WriteControlTransfer
          (LIBUSB_REQUEST_TYPE_VENDOR ||| LIBUSB_RECIPIENT_DEVICE)
          sampleHeader.ANCHOR_LOAD_INTERNAL ((0x1000 + 64 * 2) % 65536) 0
          (.outBuffer (toInt32 ((2 : Nat) * 64))) (chunkLength 130 (chunkCount 130) 2) :=
  ⟨((anchor_chunk_request sampleHeader fullDevice
      (sampleInBuffer ⟨1, 0, 0, 8, 1, 7⟩ ⟨0x1000⟩ ⟨1, 2, 2, 9, 5, 6⟩) 2 [] 130 (by decide)).1
      2 ⟨Transfer.WriteControlTransfer 0x40 0xA0 0x1080 0 (.outBuffer 128) 2, 2⟩
      (by decide)).1,
    ((anchor_chunk_request sampleHeader fullDevice
      (sampleInBuffer ⟨1, 0, 0, 8, 1, 7⟩ ⟨0x1000⟩ ⟨1, 2, 2, 9, 5, 6⟩) 2 [] 130 (by decide)).1
      2 ⟨Transfer.WriteControlTransfer 0x40 0xA0 0x1080 0 (.outBuffer 128) 2, 2⟩
      (by decide)).2.1⟩

/-! ## The anchor download: the bytes sent -/

/-- Cutting a list into consecutive pieces of 64 elements and joining the
first `n` pieces gives back its first `64 * n` elements. -/
theorem flatten_pieces (l : List Nat) (n : Nat) :
    ((List.range n).map (fun i => (l.drop (64 * i)).take 64)).flatten = l.take (64 * n) := by
  induction n with
  | zero => simp
  | succ n ih =>
    rw [List.range_succ, List.map_append, List.flatten_append, ih]
    have hmul : 64 * (n + 1) = 64 * n + 64 := by omega
    rw [hmul, List.take_add]
    simp

/-- Below `2^31` the `int` product `i * 64` is exact. -/
theorem toInt32_exact (i : Nat) (h : i * 64 < 2147483648) :
    toInt32 ((i : Int) * (ANCHOR_DOWNLOAD_CHUNK_SIZE : Int)) = ((64 * i : Nat) : Int) := by
  unfold toInt32 ANCHOR_DOWNLOAD_CHUNK_SIZE
  push_cast
  omega

/-- The intended length of chunk `i` when the chunk count is the rounded-up
quotient: 64, or the remainder for a last partial chunk; the chunk lies
inside a payload of `P` bytes. -/
theorem chunkLength_inside (P i : Nat) (hi : i < (P + 63) / 64) :
    64 * i + chunkLength P ((P + 63) / 64) i ≤ P ∧
    (chunkLength P ((P + 63) / 64) i = 64 ∨
      64 * i + chunkLength P ((P + 63) / 64) i = P) := by
  unfold chunkLength ANCHOR_DOWNLOAD_CHUNK_SIZE toUInt16
  split
  · rename_i hlast
    obtain ⟨h1, h2⟩ := hlast
    have hmod : P % 64 % 65536 = P % 64 := by omega
    rw [hmod]
    have : 64 * i + P % 64 = P := by omega
    exact ⟨by omega, Or.inr this⟩
  · rename_i hnot
    refine ⟨?_, Or.inl rfl⟩
    by_cases hz : P % 64 = 0
    · omega
    · have hne : ¬ ((i : Int) = (((P + 63) / 64 : Nat) : Int) - 1) := fun h => hnot ⟨h, hz⟩
      omega

/-- The payload of the control-write of chunk `i`. -/
theorem chunkTransfer_payload (hdr : EzusbHeader) (req : ANCHOR_DOWNLOAD_CONTROL)
    (P n i : Nat) (outBuffer : List Nat) :
    (chunkTransfer hdr req P n i).payload outBuffer
      = bytesAt outBuffer (toInt32 ((i : Int) * (ANCHOR_DOWNLOAD_CHUNK_SIZE : Int)))
          (chunkLength P n i) := rfl

/-- A range that lies inside the buffer is read in full. -/
theorem bytesAt_inside (buffer : List Nat) (k length : Nat)
    (h : k + length ≤ buffer.length) :
    bytesAt buffer ((k : Nat) : Int) length = some ((buffer.drop k).take length) := by
  unfold bytesAt
  rw [if_pos ⟨Int.ofNat_nonneg k, by simpa using h⟩]
  simp

/-- The payloads of the calls of chunks `0, …, m-1`. -/
theorem anchorCalls_payloads (dev : LIBUSBDevice) (hdr : EzusbHeader)
    (req : ANCHOR_DOWNLOAD_CONTROL) (P n m : Nat) (outBuffer : List Nat) :
    (anchorCalls dev hdr req P n m).map (fun c => c.xfer.payload outBuffer)
      = (List.range m).map (fun (i : Nat) =>
          bytesAt outBuffer (toInt32 ((i : Int) * (ANCHOR_DOWNLOAD_CHUNK_SIZE : Int)))
            (chunkLength P n i)) := by
  induction m with
  | zero => rfl
  | succ m ih =>
    rw [anchorCalls_succ, List.map_append, List.range_succ, List.map_append, ih]
    rfl

/-- For a payload of at most `2^31` bytes held by the output buffer and a
device that transfers every chunk in full, chunk `i` of a valid
anchor-download request sends the bytes of the output buffer at positions
`64·i` to `64·i + length_i`, and the payloads joined in issue order are the
whole output buffer. -/
theorem anchor_download_payloads_in_range (hdr : EzusbHeader) (dev : LIBUSBDevice)
    (inBuffer : InBuffer) (inBufferLen : Nat) (outBuffer : List Nat)
    (hvalid : hdr.sizeof_ANCHOR_DOWNLOAD_CONTROL ≤ inBufferLen)
    (hP : outBuffer.length ≤ 2147483648)
    (hfull : ∀ hist x, (dev.respond hist x).ret = (x.length : Int)) :
    (Hdl_ANCHOR_DOWNLOAD hdr (some dev) inBuffer inBufferLen outBuffer
        outBuffer.length).payloads outBuffer
      = (List.range ((outBuffer.length + 63) / 64)).map (fun i =>
          some ((outBuffer.drop (64 * i)).take
            (chunkLength outBuffer.length ((outBuffer.length + 63) / 64) i))) ∧
    ((List.range ((outBuffer.length + 63) / 64)).map (fun i =>
        (outBuffer.drop (64 * i)).take
          (chunkLength outBuffer.length ((outBuffer.length + 63) / 64) i))).flatten
      = outBuffer := by
  have hcount : chunkCount outBuffer.length = (outBuffer.length + 63) / 64 :=
    chunkCount_in_range _ (by omega)
  have hrun := anchorLoop_all_full dev hdr inBuffer.asANCHOR_DOWNLOAD_CONTROL outBuffer.length
    (chunkCount outBuffer.length) (chunkCount outBuffer.length) 0 (by
      intro j _ _
      unfold anchorResponse
      rw [hfull]
      rfl)
  constructor
  · rw [Hdl_ANCHOR_DOWNLOAD_valid hdr dev inBuffer inBufferLen outBuffer _ hvalid, hrun, hcount,
      Nat.zero_add]
    unfold HandlerRun.payloads
    rw [anchorCalls_payloads]
    apply List.map_congr_left
    intro i hi
    have hi2 : i < (outBuffer.length + 63) / 64 := List.mem_range.mp hi
    have hinside := (chunkLength_inside outBuffer.length i hi2).1
    have hlt : i * 64 < 2147483648 := by omega
    rw [toInt32_exact i hlt, bytesAt_inside _ _ _ hinside]
  · have hpieces : (List.range ((outBuffer.length + 63) / 64)).map (fun i =>
          (outBuffer.drop (64 * i)).take
            (chunkLength outBuffer.length ((outBuffer.length + 63) / 64) i))
        = (List.range ((outBuffer.length + 63) / 64)).map (fun i =>
          (outBuffer.drop (64 * i)).take 64) := by
      apply List.map_congr_left
      intro i hi
      have hi2 : i < (outBuffer.length + 63) / 64 := List.mem_range.mp hi
      rcases (chunkLength_inside outBuffer.length i hi2).2 with h64 | hend
      · rw [h64]
      · have hlen : (outBuffer.drop (64 * i)).length
            = chunkLength outBuffer.length ((outBuffer.length + 63) / 64) i := by
          rw [List.length_drop]
          omega
        have hle : chunkLength outBuffer.length ((outBuffer.length + 63) / 64) i ≤ 64 := by
          unfold chunkLength ANCHOR_DOWNLOAD_CHUNK_SIZE toUInt16
          split <;> omega
        rw [List.take_of_length_le (by omega), List.take_of_length_le (by omega)]
    rw [hpieces, flatten_pieces]
    exact List.take_of_length_le (by omega)

/-- The anchor-download handler at the output length `0xFFFFFFFF`. -/
theorem Hdl_ANCHOR_DOWNLOAD_at_wrap (hdr : EzusbHeader) (dev : LIBUSBDevice)
    (inBuffer : InBuffer) (outBuffer : List Nat) :
    Hdl_ANCHOR_DOWNLOAD hdr (some dev) inBuffer hdr.sizeof_ANCHOR_DOWNLOAD_CONTROL
        outBuffer 4294967295
      = { calls := [], completion := .returned ⟨ERROR_SUCCESS, none⟩, version := none } := by
  rw [Hdl_ANCHOR_DOWNLOAD_valid hdr dev inBuffer _ outBuffer _ (Nat.le_refl _)]
  have h0 : chunkCount 4294967295 = 0 := by decide
  rw [h0]
  rfl

/-- C18 (failing input): for an output buffer of `0xFFFFFFFF` bytes the
anchor-download handler returns success having sent no payload at all, so the
payloads joined in issue order are empty and not the output buffer. -/
theorem anchor_download_sends_nothing_at_wrap (hdr : EzusbHeader) (dev : LIBUSBDevice)
    (inBuffer : InBuffer) :
    (List.replicate 4294967295 (0 : Nat)).length = 4294967295 ∧
    (Hdl_ANCHOR_DOWNLOAD hdr (some dev) inBuffer hdr.sizeof_ANCHOR_DOWNLOAD_CONTROL
        (List.replicate 4294967295 0) 4294967295).payloads (List.replicate 4294967295 0)
      = [] ∧
    (Hdl_ANCHOR_DOWNLOAD hdr (some dev) inBuffer hdr.sizeof_ANCHOR_DOWNLOAD_CONTROL
        (List.replicate 4294967295 0) 4294967295).completion
      = .returned ⟨ERROR_SUCCESS, none⟩ := by
  rw [Hdl_ANCHOR_DOWNLOAD_at_wrap]
  exact ⟨List.length_replicate _ _, rfl, rfl⟩

/-- For a payload of `2^31 + 64` bytes and a device that transfers every
chunk in full, the call of chunk 33554432 is issued with the buffer offset
`−2147483648`: the `int` product `i * 64` has left the range of `int`. -/
theorem anchor_download_offset_wraps (hdr : EzusbHeader) (dev : LIBUSBDevice)
    (inBuffer : InBuffer) (inBufferLen : Nat) (outBuffer : List Nat)
    (hvalid : hdr.sizeof_ANCHOR_DOWNLOAD_CONTROL ≤ inBufferLen)
    (hfull : ∀ hist x, (dev.respond hist x).ret = (x.length : Int)) :
    ((Hdl_ANCHOR_DOWNLOAD hdr (some dev) inBuffer inBufferLen outBuffer
        2147483712).calls.map Call.xfer)[33554432]?
      = some (Transfer.WriteControlTransfer
          (LIBUSB_REQUEST_TYPE_VENDOR ||| LIBUSB_RECIPIENT_DEVICE) hdr.ANCHOR_LOAD_INTERNAL
          (chunkValue inBuffer.asANCHOR_DOWNLOAD_CONTROL 33554432) 0
          (.outBuffer (-2147483648)) 64) := by
  have hrun := anchorLoop_all_full dev hdr inBuffer.asANCHOR_DOWNLOAD_CONTROL 2147483712
    (chunkCount 2147483712) (chunkCount 2147483712) 0 (by
      intro j _ _
      unfold anchorResponse
      rw [hfull]
      rfl)
  rw [Hdl_ANCHOR_DOWNLOAD_valid hdr dev inBuffer inBufferLen outBuffer _ hvalid, hrun]
  have hn : chunkCount 2147483712 = 33554433 := by decide
  rw [hn]
  simp only [anchorCalls, List.map_map, Nat.zero_add, List.getElem?_map]
  rw [List.getElem?_range (by decide)]
  simp only [Option.map_some', Function.comp, chunkTransfer, Option.some.injEq]
  have hlen : chunkLength 2147483712 33554433 33554432 = 64 := by decide
  have hoff : toInt32 (((33554432 : Nat) : Int) * (ANCHOR_DOWNLOAD_CHUNK_SIZE : Int))
      = -2147483648 := by decide
  rw [hlen, hoff]

end EZUSB
